import Mathlib

/-!
Verification development for the rotmgclone game server.

The definitions below are a shallow embedding of the server-side simulation
code (`shared/src/definitions.ts`, `server/src/game/*.ts`, and the
`Instance` / `GameServer` classes).  JavaScript numbers are modelled as
exact rationals (`ℚ`).  Two systematic conventions are used:

* Every comparison of the form `Math.sqrt(d2) OP r` in the source (with a
  nonnegative threshold `r`) is embedded as the equivalent squared
  comparison `d2 OP r^2`; all thresholds compared against distances in the
  source (radii sums, pickup/portal ranges, AOI radius, behaviour ranges)
  are nonnegative.
* Calls whose exact value is irrational or nondeterministic
  (`Math.sqrt` used as a value, `Math.cos`/`Math.sin`/`Math.atan2`,
  `Math.random()`, `Date.now()`, `uuid()`) are modelled as oracle inputs:
  an `Oracle` structure supplies the trigonometric functions and the
  square-root values, a rational tape supplies the random stream, `now` is
  threaded explicitly, and fresh entity ids are drawn from a counter.
-/

namespace RotMG

/-- Two-dimensional vector over exact rationals (source: `Vec2` with JS
number fields). -/
structure Vec2 where
  x : ℚ
  y : ℚ
  deriving DecidableEq, Repr

/-- Squared Euclidean distance.  The source computes
`Math.sqrt(dx*dx + dy*dy)`; every comparison against it is embedded via
this square. -/
def distSq (a b : Vec2) : ℚ :=
  (a.x - b.x) * (a.x - b.x) + (a.y - b.y) * (a.y - b.y)

/-- Circle-circle overlap test (source: `Entity.collidesWith`,
`dist < r1 + r2` with `dist = Math.sqrt(...)`; radii are nonnegative, so
the squared comparison is equivalent). -/
def collides (pa : Vec2) (ra : ℚ) (pb : Vec2) (rb : ℚ) : Bool :=
  distSq pa pb < (ra + rb) * (ra + rb)

/-- Tile codes of the map grid (source: `TileType` enum in
`shared/src/types.ts`). -/
inductive TileType where
  | void
  | floor
  | wall
  | water
  | lava
  | spawn
  | bossFloor
  deriving DecidableEq, Repr

/-- Tile grid of one instance (source: `GameMap`).  The flat tile array is
modelled as a total function from flat indices to tiles. -/
structure GameMap where
  width : ℕ
  height : ℕ
  tiles : ℕ → TileType

/-- Source: `GameMap.getTile`.  Out-of-bounds coordinates return `WALL`. -/
def GameMap.getTile (m : GameMap) (x y : ℚ) : TileType :=
  let tx : ℤ := ⌊x⌋
  let ty : ℤ := ⌊y⌋
  if tx < 0 ∨ (m.width : ℤ) ≤ tx ∨ ty < 0 ∨ (m.height : ℤ) ≤ ty then
    TileType.wall
  else
    m.tiles (ty.toNat * m.width + tx.toNat)

/-- Source: `GameMap.isWalkable`; only floor, spawn and boss-floor tiles
are walkable. -/
def GameMap.isWalkable (m : GameMap) (x y : ℚ) : Bool :=
  let t := m.getTile x y
  t = TileType.floor ∨ t = TileType.spawn ∨ t = TileType.bossFloor

/-- Source: `GameMap.canMoveTo`; samples the center and the four
radius-corners and requires all five to be walkable. -/
def GameMap.canMoveTo (m : GameMap) (x y radius : ℚ) : Bool :=
  m.isWalkable x y &&
  m.isWalkable (x - radius) (y - radius) &&
  m.isWalkable (x + radius) (y - radius) &&
  m.isWalkable (x - radius) (y + radius) &&
  m.isWalkable (x + radius) (y + radius)

/-! ## Content tables

Record types for the immutable content definitions
(`shared/src/definitions.ts`).  Only the fields consulted by the embedded
server functions are carried. -/

/-- Class definition fields used by `levelUp` and the equipment
compatibility checks (source: `ClassDefinition`). -/
structure ClassDef where
  hpPerLevel : ℚ
  mpPerLevel : ℚ
  attackPerLevel : ℚ
  defensePerLevel : ℚ
  speedPerLevel : ℚ
  dexterityPerLevel : ℚ
  vitalityPerLevel : ℚ
  wisdomPerLevel : ℚ
  weaponType : String
  abilityType : String
  armorType : String
  deriving DecidableEq, Repr

/-- Item catalog entry (source: `ItemDefinition`); `itemKind` is the
source field `type`. -/
structure ItemDef where
  itemKind : String
  soulbound : Bool
  deriving DecidableEq, Repr

/-- Weapon entry; only the weapon-type string is consulted by the swap
validation (source: `WeaponDefinition.type`). -/
structure WeaponDef where
  weaponKind : String
  deriving DecidableEq, Repr

/-- Ability entry; only the ability-type string is consulted by the swap
validation (source: `AbilityDefinition.type`). -/
structure AbilityDef where
  abilityKind : String
  deriving DecidableEq, Repr

/-- Armor entry (source: `ArmorDefinition`). -/
structure ArmorDef where
  armorKind : String
  defense : ℚ
  deriving DecidableEq, Repr

/-- Ring stat block (source: `RingDefinition.stats`); absent optional
fields are 0, matching the JS truthiness guards at the use sites. -/
structure RingDef where
  attack : ℚ
  defense : ℚ
  speed : ℚ
  deriving DecidableEq, Repr

/-- One roll of an enemy loot table (source: `LootTableEntry`). -/
structure LootEntry where
  itemId : String
  chance : ℚ
  deriving DecidableEq, Repr

/-- Enemy behavior descriptor (source: `EnemyDefinition.behavior`). -/
inductive Behavior where
  | wander
  | chase (range : ℚ)
  | orbit (range : ℚ) (speed : ℚ)
  | stationary
  deriving DecidableEq, Repr

/-- One enemy attack (source: `EnemyAttack`); `damageLo`/`damageHi` are
the two ends of the source `damage` pair. -/
structure EnemyAttack where
  damageLo : ℚ
  damageHi : ℚ
  rateOfFire : ℚ
  range : ℚ
  projectileSpeed : ℚ
  numProjectiles : ℕ
  arcGap : ℚ
  projectileId : String
  predictive : Bool
  deriving DecidableEq, Repr

/-- One boss phase (source: `EnemyPhase`). -/
structure EnemyPhase where
  hpPercent : ℚ
  attackDuration : ℚ
  restDuration : ℚ
  attackIndices : List ℕ
  deriving DecidableEq, Repr

/-- Enemy definition (source: `EnemyDefinition`); `phases` is the empty
list when the source field is absent. -/
structure EnemyDef where
  hp : ℚ
  defense : ℚ
  speed : ℚ
  radius : ℚ
  xpReward : ℚ
  behavior : Behavior
  attacks : List EnemyAttack
  phases : List EnemyPhase
  lootTable : List LootEntry
  deriving DecidableEq, Repr

/-- The content tables (`CLASSES`, `ITEMS`, `WEAPONS`, `ABILITIES`,
`ARMORS`, `RINGS`, `ENEMIES`), each modelled as a partial lookup. -/
structure Tables where
  classes : String → Option ClassDef
  items : String → Option ItemDef
  weapons : String → Option WeaponDef
  abilities : String → Option AbilityDef
  armors : String → Option ArmorDef
  rings : String → Option RingDef
  enemies : String → Option EnemyDef

/-- Oracle for the transcendental / irrational primitives of the JS
runtime: `Math.PI`, and the value-producing uses of `Math.sqrt`,
`Math.cos`, `Math.sin`, `Math.atan2`.  All theorems quantify over the
oracle, so they hold in particular for the actual IEEE approximations. -/
structure Oracle where
  pi : ℚ
  sqrt : ℚ → ℚ
  cos : ℚ → ℚ
  sin : ℚ → ℚ
  atan2 : ℚ → ℚ → ℚ

/-- Source: `normalizeVec2`; the square root is supplied by the oracle,
and the `len === 0` early return is kept. -/
def normalizeVec2 (o : Oracle) (v : Vec2) : Vec2 :=
  let len := o.sqrt (v.x * v.x + v.y * v.y)
  if len = 0 then ⟨0, 0⟩ else ⟨v.x / len, v.y / len⟩

/-! ## Player entity -/

/-- One active buff (source: `PlayerEntity.activeBuffs` entries). -/
structure Buff where
  stat : String
  amount : ℚ
  endTime : ℚ
  deriving DecidableEq, Repr

/-- Client input as stored on the player (source: `PlayerInput`). -/
structure PlayerInput where
  moveDirection : Vec2
  aimAngle : ℚ
  shooting : Bool
  deriving DecidableEq, Repr

/-- Server-side player entity state (source: `PlayerEntity`); fields not
consulted by the embedded functions are omitted. -/
structure PlayerE where
  id : String
  classId : String
  position : Vec2
  radius : ℚ
  level : ℕ
  exp : ℚ
  hp : ℚ
  maxHp : ℚ
  mp : ℚ
  maxMp : ℚ
  attack : ℚ
  defense : ℚ
  speed : ℚ
  dexterity : ℚ
  vitality : ℚ
  wisdom : ℚ
  equipment : List (Option String)
  inventory : List (Option String)
  lastHitTime : ℚ
  hpRegenAccum : ℚ
  mpRegenAccum : ℚ
  activeBuffs : List Buff
  lastInput : Option PlayerInput
  markedForRemoval : Bool
  deriving DecidableEq, Repr

/-- Source: `PlayerEntity.getBuffBonus`. -/
def PlayerE.getBuffBonus (p : PlayerE) (stat : String) : ℚ :=
  (p.activeBuffs.filter (fun b => b.stat = stat)).foldl
    (fun acc b => acc + b.amount) 0

/-- Source: `PlayerEntity.getEffectiveSpeed`.  The JS truthiness guard
`RINGS[ringId]?.stats.speed` is the `≠ 0` test. -/
def PlayerE.getEffectiveSpeed (tbl : Tables) (p : PlayerE) : ℚ :=
  let base := 4 + p.speed * (1/10)
  let withRing :=
    match p.equipment.getD 3 none with
    | none => base
    | some ringId =>
      match tbl.rings ringId with
      | none => base
      | some r => if r.speed ≠ 0 then base + r.speed * (1/10) else base
  withRing + p.getBuffBonus "speed" * (1/10)

/-- Source: `PlayerEntity.getEffectiveAttack`. -/
def PlayerE.getEffectiveAttack (tbl : Tables) (p : PlayerE) : ℚ :=
  match p.equipment.getD 3 none with
  | none => p.attack
  | some ringId =>
    match tbl.rings ringId with
    | none => p.attack
    | some r => if r.attack ≠ 0 then p.attack + r.attack else p.attack

/-- Source: `PlayerEntity.getEffectiveDefense`. -/
def PlayerE.getEffectiveDefense (tbl : Tables) (p : PlayerE) : ℚ :=
  let withArmor :=
    match p.equipment.getD 2 none with
    | none => p.defense
    | some armorId =>
      match tbl.armors armorId with
      | none => p.defense
      | some a => p.defense + a.defense
  match p.equipment.getD 3 none with
  | none => withArmor
  | some ringId =>
    match tbl.rings ringId with
    | none => withArmor
    | some r => if r.defense ≠ 0 then withArmor + r.defense else withArmor

/-- Source: `PlayerEntity.takeDamage`; returns the damage dealt and the
updated player.  `Math.max(Math.floor(raw*0.15), raw - defense)`. -/
def PlayerE.takeDamage (tbl : Tables) (p : PlayerE) (rawDamage now : ℚ) :
    ℚ × PlayerE :=
  let defense := p.getEffectiveDefense tbl
  let damage := max ((⌊rawDamage * (15/100)⌋ : ℤ) : ℚ) (rawDamage - defense)
  (damage, { p with hp := max 0 (p.hp - damage), lastHitTime := now })

/-- Source: `getExpForLevel` in `shared/src/definitions.ts`:
`Math.floor(100 * Math.pow(1.2, level - 1))`.  Every call site passes a
level that is at least 1, which the truncated subtraction matches. -/
def getExpForLevel (level : ℕ) : ℤ :=
  ⌊(100 : ℚ) * (6/5 : ℚ) ^ (level - 1)⌋

/-- Maximum level (source: `MAX_LEVEL`). -/
def MAX_LEVEL : ℕ := 20

/-- Source: `PlayerEntity.levelUp`; stats grow only when the class id is
known. -/
def PlayerE.levelUp (tbl : Tables) (p : PlayerE) : PlayerE :=
  let p1 := { p with level := p.level + 1, exp := 0 }
  match tbl.classes p.classId with
  | none => p1
  | some cls =>
    let maxHp := p1.maxHp + cls.hpPerLevel
    let maxMp := p1.maxMp + cls.mpPerLevel
    { p1 with
      maxHp := maxHp
      maxMp := maxMp
      hp := maxHp
      mp := maxMp
      attack := p1.attack + cls.attackPerLevel
      defense := p1.defense + cls.defensePerLevel
      speed := p1.speed + cls.speedPerLevel
      dexterity := p1.dexterity + cls.dexterityPerLevel
      vitality := p1.vitality + cls.vitalityPerLevel
      wisdom := p1.wisdom + cls.wisdomPerLevel }

/-- Source: `PlayerEntity.addExp`; returns whether a level-up happened
together with the updated player. -/
def PlayerE.addExp (tbl : Tables) (p : PlayerE) (amount : ℚ) :
    Bool × PlayerE :=
  if MAX_LEVEL ≤ p.level then (false, p)
  else
    let p1 := { p with exp := p.exp + amount }
    let expNeeded : ℚ := (getExpForLevel (p.level + 1) : ℚ)
    if expNeeded ≤ p1.exp then (true, p1.levelUp tbl) else (false, p1)

/-- Source: `PlayerEntity.addToInventory`; places the item in the first
empty inventory slot. -/
def PlayerE.addToInventory (p : PlayerE) (itemId : String) :
    Bool × PlayerE :=
  match p.inventory.findIdx? (fun s => s = none) with
  | none => (false, p)
  | some i => (true, { p with inventory := p.inventory.set i (some itemId) })

/-- Movement part of `PlayerEntity.update`: diagonal attempt, then
x-only, then y-only wall slide, each gated by `canMoveTo`. -/
def playerMoveStep (m : GameMap) (pos : Vec2) (radius : ℚ)
    (moveDir : Vec2) (moveSpeed dt : ℚ) : Vec2 :=
  let newX := pos.x + moveDir.x * moveSpeed * dt
  let newY := pos.y + moveDir.y * moveSpeed * dt
  if m.canMoveTo newX newY radius then ⟨newX, newY⟩
  else if m.canMoveTo newX pos.y radius then ⟨newX, pos.y⟩
  else if m.canMoveTo pos.x newY radius then ⟨pos.x, newY⟩
  else pos

/-- Source: `PlayerEntity.update` (buff expiry, input-directed movement
with wall slide, hp/mp regeneration accumulators). -/
def PlayerE.update (tbl : Tables) (o : Oracle) (m : GameMap)
    (p : PlayerE) (dt now : ℚ) : PlayerE :=
  let p1 : PlayerE := { p with activeBuffs := p.activeBuffs.filter (fun b => now < b.endTime) }
  let p2 : PlayerE :=
    match p1.lastInput with
    | none => p1
    | some input =>
      let moveDir := normalizeVec2 o input.moveDirection
      let moveSpeed := p1.getEffectiveSpeed tbl
      { p1 with position := playerMoveStep m p1.position p1.radius moveDir moveSpeed dt }
  let p3 : PlayerE :=
    if p2.hp < p2.maxHp then
      let accum := p2.hpRegenAccum + (1 + p2.vitality * (12/100)) * dt
      if 1 ≤ accum then
        let regen : ℚ := ((⌊accum⌋ : ℤ) : ℚ)
        { p2 with hp := min p2.maxHp (p2.hp + regen), hpRegenAccum := accum - regen }
      else { p2 with hpRegenAccum := accum }
    else p2
  if p3.mp < p3.maxMp then
    let accum := p3.mpRegenAccum + (1/2 + p3.wisdom * (6/100)) * dt
    if 1 ≤ accum then
      let regen : ℚ := ((⌊accum⌋ : ℤ) : ℚ)
      { p3 with mp := min p3.maxMp (p3.mp + regen), mpRegenAccum := accum - regen }
    else { p3 with mpRegenAccum := accum }
  else p3

/-! ## Projectile entity -/

/-- Owner side of a projectile (source: `'player' | 'enemy'`). -/
inductive Side where
  | player
  | enemy
  deriving DecidableEq, Repr

/-- Source: `ProjectileEntity`.  `spawnTime` and lifetimes are in the
source units (milliseconds for times-of-day, seconds for `lifetime`). -/
structure Projectile where
  id : String
  ownerId : String
  ownerType : Side
  definitionId : String
  position : Vec2
  radius : ℚ
  velocity : Vec2
  damage : ℚ
  piercing : Bool
  lifetime : ℚ
  spawnTime : ℚ
  hitEntities : List String
  markedForRemoval : Bool
  deriving DecidableEq, Repr

/-- Source: `ProjectileEntity` constructor; the velocity components use
the oracle for `Math.cos`/`Math.sin`, and the hitbox radius is 0.15. -/
def mkProjectile (o : Oracle) (id ownerId : String) (ownerType : Side)
    (definitionId : String) (position : Vec2) (angle speed damage : ℚ)
    (piercing : Bool) (lifetime now : ℚ) : Projectile :=
  { id := id
    ownerId := ownerId
    ownerType := ownerType
    definitionId := definitionId
    position := position
    radius := 3/20
    velocity := ⟨o.cos angle * speed, o.sin angle * speed⟩
    damage := damage
    piercing := piercing
    lifetime := lifetime
    spawnTime := now
    hitEntities := []
    markedForRemoval := false }

/-- Source: `ProjectileEntity.update`; ballistic move plus lifetime
expiry (age in seconds). -/
def Projectile.update (p : Projectile) (dt now : ℚ) : Projectile :=
  let p1 := { p with position := ⟨p.position.x + p.velocity.x * dt,
                                  p.position.y + p.velocity.y * dt⟩ }
  if p1.lifetime ≤ (now - p1.spawnTime) / 1000 then
    { p1 with markedForRemoval := true }
  else p1

/-- Source: `ProjectileEntity.hasHit`. -/
def Projectile.hasHit (p : Projectile) (entityId : String) : Bool :=
  p.hitEntities.contains entityId

/-- Source: `ProjectileEntity.recordHit`; inserts into the hit set and
marks a non-piercing projectile for removal. -/
def Projectile.recordHit (p : Projectile) (entityId : String) : Projectile :=
  let hits := if p.hitEntities.contains entityId then p.hitEntities
              else p.hitEntities ++ [entityId]
  { p with hitEntities := hits
           markedForRemoval := p.markedForRemoval || !p.piercing }

/-! ## Loot entity -/

/-- Source: `LootEntity`. -/
structure Loot where
  id : String
  itemId : String
  items : List String
  position : Vec2
  radius : ℚ
  despawnTime : ℚ
  ownerId : Option String
  soulbound : Bool
  markedForRemoval : Bool
  deriving DecidableEq, Repr

/-- Source: `LootEntity` constructor (radius 0.3, despawn after
`lifetime` seconds). -/
def mkLoot (id itemId : String) (position : Vec2) (lifetime : ℚ)
    (ownerId : Option String) (soulbound : Bool) (now : ℚ) : Loot :=
  { id := id
    itemId := itemId
    items := [itemId]
    position := position
    radius := 3/10
    despawnTime := now + lifetime * 1000
    ownerId := ownerId
    soulbound := soulbound
    markedForRemoval := false }

/-- Source: `LootEntity.addItem`; capped at 8 items, and resets the
despawn timer on success. -/
def Loot.addItem (l : Loot) (itemId : String) (now : ℚ) : Bool × Loot :=
  if 8 ≤ l.items.length then (false, l)
  else (true, { l with items := l.items ++ [itemId],
                       despawnTime := now + 60 * 1000 })

/-- Source: `LootEntity.removeItem`; splices out the indexed item,
marking the bag for removal when it becomes empty. -/
def Loot.removeItem (l : Loot) (index : ℕ) : Option String × Loot :=
  if l.items.length ≤ index then (none, l)
  else
    let item := l.items.getD index ""
    let rest := l.items.eraseIdx index
    if rest = [] then
      (some item, { l with items := rest, markedForRemoval := true })
    else
      (some item, { l with items := rest, itemId := rest.headD "" })

/-- Source: `LootEntity.update`; despawn on timeout. -/
def Loot.update (l : Loot) (now : ℚ) : Loot :=
  if l.despawnTime ≤ now then { l with markedForRemoval := true } else l

/-! ## Portal entity -/

/-- Source: `PortalEntity`.  `targetType` is the source string tag; the
declared TS union lacks `'vault'` but the running `GameServer` constructs
vault portals, so the embedding keeps the tag as a plain string. -/
structure Portal where
  id : String
  position : Vec2
  radius : ℚ
  targetInstance : String
  targetType : String
  name : String
  expiresAt : Option ℚ
  visible : Bool
  markedForRemoval : Bool
  deriving DecidableEq, Repr

/-- Source: `PortalEntity` constructor (radius 0.5; expiry from an
optional lifetime in seconds). -/
def mkPortal (id : String) (position : Vec2)
    (targetInstance targetType name : String) (lifetime : Option ℚ)
    (now : ℚ) : Portal :=
  { id := id
    position := position
    radius := 1/2
    targetInstance := targetInstance
    targetType := targetType
    name := name
    expiresAt := lifetime.map (fun s => now + s * 1000)
    visible := true
    markedForRemoval := false }

/-- Source: `PortalEntity.update`; self-removal at expiry and the tiered
blink cadence below 30 s / 10 s / 3 s of remaining time. -/
def Portal.update (p : Portal) (now : ℚ) : Portal :=
  match p.expiresAt with
  | none => p
  | some expiry =>
    let timeLeft := expiry - now
    if timeLeft ≤ 0 then { p with markedForRemoval := true }
    else if timeLeft < 3000 then { p with visible := ⌊now / 100⌋ % 2 = 0 }
    else if timeLeft < 10000 then { p with visible := ⌊now / 250⌋ % 2 = 0 }
    else if timeLeft < 30000 then { p with visible := ⌊now / 500⌋ % 2 = 0 }
    else { p with visible := true }

/-! ## Enemy entity -/

/-- Fan-angle computation inside `EnemyEntity.fireAttack`: the even-count
half-gap offset, the start angle, and the list of projectile angles.
`arcGapRad` is the source value `(attack.arcGap * Math.PI) / 180`. -/
def fireAttackAngles (arcGapRad : ℚ) (n : ℕ) (aim : ℚ) : List ℚ :=
  let evenOffset := if n % 2 = 0 then arcGapRad / 2 else 0
  let startAngle := aim - (arcGapRad * ((n : ℚ) - 1)) / 2 - evenOffset
  (List.range n).map (fun i : ℕ => startAngle + arcGapRad * (i : ℚ))

/-- Server-side enemy entity state (source: `EnemyEntity`); the damage
attribution map is an association list in insertion order, like a JS
`Map`. -/
structure EnemyE where
  id : String
  definitionId : String
  defn : EnemyDef
  position : Vec2
  radius : ℚ
  hp : ℚ
  maxHp : ℚ
  targetPlayer : Option String
  lastAttackTimes : List ℚ
  wanderTarget : Option Vec2
  wanderTimer : ℚ
  orbitAngle : ℚ
  currentPhaseIndex : ℕ
  phaseTimer : ℚ
  isResting : Bool
  damageByPlayer : List (String × ℚ)
  markedForRemoval : Bool
  deriving DecidableEq, Repr

/-- JS `Map.set`: overwrite an existing key in place, otherwise append. -/
def mapSet (l : List (String × ℚ)) (k : String) (v : ℚ) :
    List (String × ℚ) :=
  if l.any (fun kv => kv.1 = k) then
    l.map (fun kv => if kv.1 = k then (k, v) else kv)
  else l ++ [(k, v)]

/-- Source: `EnemyEntity` constructor; the initial orbit angle consumes
one random value (`Math.random() * Math.PI * 2`). -/
def mkEnemyE (o : Oracle) (id definitionId : String) (defn : EnemyDef)
    (position : Vec2) (tape : List ℚ) : EnemyE × List ℚ :=
  let r := tape.headD 0
  ({ id := id
     definitionId := definitionId
     defn := defn
     position := position
     radius := defn.radius
     hp := defn.hp
     maxHp := defn.hp
     targetPlayer := none
     lastAttackTimes := defn.attacks.map (fun _ => 0)
     wanderTarget := none
     wanderTimer := 0
     orbitAngle := r * o.pi * 2
     currentPhaseIndex := 0
     phaseTimer := 0
     isResting := false
     damageByPlayer := []
     markedForRemoval := false }, tape.tail)

/-- Source: `EnemyEntity.takeDamage`; flat defense, floored at 1 actual
damage, hp floored at 0, with damage attribution. -/
def EnemyE.takeDamage (e : EnemyE) (damage : ℚ) (attackerId : Option String) :
    ℚ × EnemyE :=
  let actual := max 1 (damage - e.defn.defense)
  let e1 := { e with hp := max 0 (e.hp - actual) }
  let e2 :=
    match attackerId with
    | none => e1
    | some aid =>
      let current := ((e1.damageByPlayer.lookup aid).getD 0)
      { e1 with damageByPlayer := mapSet e1.damageByPlayer aid (current + actual) }
  (actual, e2)

/-- Source: `EnemyEntity.getQualifiedPlayers`; attributed damage of at
least 5% of max hp qualifies for soulbound drops. -/
def EnemyE.getQualifiedPlayers (e : EnemyE) : List String :=
  ((e.damageByPlayer.filter (fun kv => e.maxHp * (5/100) ≤ kv.2)).map
    (fun kv => kv.1))

/-- Placeholder phase used only for the (unreachable on the source
content) out-of-range index reads of `phases[...]`. -/
def dummyPhase : EnemyPhase := ⟨0, 0, 0, []⟩

/-- Phase-selection loop of `EnemyEntity.updatePhase`: the last index
whose `hpPercent` threshold is at least the current hp percentage, with
default 0 — the literal `for i` loop over `phases[i]`. -/
def computePhaseIndex (phases : List EnemyPhase) (hpPercent : ℚ) : ℕ :=
  (List.range phases.length).foldl
    (fun acc i =>
      if hpPercent ≤ (phases.getD i dummyPhase).hpPercent then i else acc) 0

/-- Source: `EnemyEntity.updatePhase`; selects the phase from the hp
percentage, resets the cycle on a phase change, and advances the
attack/rest cycle timer. -/
def EnemyE.updatePhase (e : EnemyE) (dt : ℚ) : EnemyE :=
  let phases := e.defn.phases
  let hpPercent := e.hp / e.maxHp * 100
  let newPhaseIndex := computePhaseIndex phases hpPercent
  let e1 :=
    if newPhaseIndex ≠ e.currentPhaseIndex then
      { e with currentPhaseIndex := newPhaseIndex, phaseTimer := 0,
               isResting := false }
    else e
  let currentPhase := phases.getD e1.currentPhaseIndex dummyPhase
  let timer := e1.phaseTimer + dt
  if e1.isResting then
    if currentPhase.restDuration ≤ timer then
      { e1 with isResting := false, phaseTimer := 0 }
    else { e1 with phaseTimer := timer }
  else
    if currentPhase.attackDuration ≤ timer then
      { e1 with isResting := true, phaseTimer := 0 }
    else { e1 with phaseTimer := timer }

/-- Source: `EnemyEntity.getCurrentPhase`. -/
def EnemyE.getCurrentPhase (e : EnemyE) : Option EnemyPhase :=
  if e.defn.phases = [] then none
  else some (e.defn.phases.getD e.currentPhaseIndex dummyPhase)

/-- Source: `EnemyEntity.updateTarget`; nearest player within 15 tiles
(both the range filter and the arg-min compare squared distances, which
is equivalent to the source square-root comparisons). -/
def EnemyE.updateTarget (e : EnemyE) (players : List PlayerE) : EnemyE :=
  let near := players.filter
    (fun p => distSq p.position e.position ≤ 15 * 15)
  let closest := near.foldl
    (fun (best : Option (String × ℚ)) p =>
      let d := distSq e.position p.position
      match best with
      | none => some (p.id, d)
      | some bd => if d < bd.2 then some (p.id, d) else some bd) none
  { e with targetPlayer := closest.map (fun x => x.1) }

/-- Source: `EnemyEntity.doWander`; axis-sign steps toward a random
wander target, re-rolled when the timer elapses (three random draws) and
with the timer zeroed when the move is blocked. -/
def EnemyE.doWander (m : GameMap) (e : EnemyE) (dt : ℚ) (tape : List ℚ) :
    EnemyE × List ℚ :=
  let timer := e.wanderTimer - dt
  let pick := timer ≤ 0 ∨ e.wanderTarget = none
  let target : Vec2 :=
    if pick then
      ⟨e.position.x + (tape.headD 0 - 1/2) * 3 * 2,
       e.position.y + (tape.tail.headD 0 - 1/2) * 3 * 2⟩
    else e.wanderTarget.getD ⟨0, 0⟩
  let timer2 : ℚ := if pick then 2 + tape.tail.tail.headD 0 * 3 else timer
  let tape2 := if pick then tape.tail.tail.tail else tape
  let sx : ℚ := if e.position.x < target.x then 1 else -1
  let sy : ℚ := if e.position.y < target.y then 1 else -1
  let newX := e.position.x + sx * e.defn.speed * dt
  let newY := e.position.y + sy * e.defn.speed * dt
  if m.canMoveTo newX newY e.radius then
    ({ e with position := ⟨newX, newY⟩, wanderTarget := some target,
              wanderTimer := timer2 }, tape2)
  else
    ({ e with wanderTarget := some target, wanderTimer := 0 }, tape2)

/-- Source: `EnemyEntity.doChase`; falls back to wandering without a
target or out of range, otherwise closes in while holding back
`max(2, firstAttack.range·0.5)` tiles (with the JS `|| 2` fallback). -/
def EnemyE.doChase (o : Oracle) (m : GameMap) (tgt : Option PlayerE)
    (e : EnemyE) (dt range : ℚ) (tape : List ℚ) : EnemyE × List ℚ :=
  match tgt with
  | none => e.doWander m dt tape
  | some target =>
    let d2 := distSq e.position target.position
    if range * range < d2 then e.doWander m dt tape
    else
      let half : ℚ :=
        match e.defn.attacks.head? with
        | none => 0
        | some a => a.range * (1/2)
      let minDist := max 2 (if half = 0 then 2 else half)
      if minDist * minDist < d2 then
        let dir := normalizeVec2 o ⟨target.position.x - e.position.x,
                                    target.position.y - e.position.y⟩
        let newX := e.position.x + dir.x * e.defn.speed * dt
        let newY := e.position.y + dir.y * e.defn.speed * dt
        if m.canMoveTo newX newY e.radius then
          ({ e with position := ⟨newX, newY⟩ }, tape)
        else (e, tape)
      else (e, tape)

/-- Source: `EnemyEntity.doOrbit`; closes in when outside `range + 1`,
otherwise advances the orbit angle and steps toward the orbit point. -/
def EnemyE.doOrbit (o : Oracle) (m : GameMap) (tgt : Option PlayerE)
    (e : EnemyE) (dt range orbitSpeed : ℚ) (tape : List ℚ) :
    EnemyE × List ℚ :=
  match tgt with
  | none => e.doWander m dt tape
  | some target =>
    let d2 := distSq e.position target.position
    if (range + 1) * (range + 1) < d2 then
      let dir := normalizeVec2 o ⟨target.position.x - e.position.x,
                                  target.position.y - e.position.y⟩
      let newX := e.position.x + dir.x * e.defn.speed * dt
      let newY := e.position.y + dir.y * e.defn.speed * dt
      if m.canMoveTo newX newY e.radius then
        ({ e with position := ⟨newX, newY⟩ }, tape)
      else (e, tape)
    else
      let angle := e.orbitAngle + orbitSpeed * dt
      let e1 := { e with orbitAngle := angle }
      let targetX := target.position.x + o.cos angle * range
      let targetY := target.position.y + o.sin angle * range
      let dir := normalizeVec2 o ⟨targetX - e1.position.x,
                                  targetY - e1.position.y⟩
      let newX := e1.position.x + dir.x * e1.defn.speed * dt
      let newY := e1.position.y + dir.y * e1.defn.speed * dt
      if m.canMoveTo newX newY e1.radius then
        ({ e1 with position := ⟨newX, newY⟩ }, tape)
      else (e1, tape)

/-- Source: `EnemyEntity.executeBehavior`. -/
def EnemyE.executeBehavior (o : Oracle) (m : GameMap)
    (tgt : Option PlayerE) (e : EnemyE) (dt : ℚ) (tape : List ℚ) :
    EnemyE × List ℚ :=
  match e.defn.behavior with
  | Behavior.wander => e.doWander m dt tape
  | Behavior.chase range => e.doChase o m tgt dt range tape
  | Behavior.orbit range speed => e.doOrbit o m tgt dt range speed tape
  | Behavior.stationary => (e, tape)

/-- Source: `EnemyEntity.fireAttack`; computes the (possibly predictive)
aim angle, rolls the damage, and spawns the projectile fan.  Returns the
spawned projectiles together with the advanced tape and id counter. -/
def EnemyE.fireAttack (tbl : Tables) (o : Oracle) (e : EnemyE)
    (target : PlayerE) (attack : EnemyAttack) (now : ℚ) (tape : List ℚ)
    (idCtr : ℕ) : List Projectile × List ℚ × ℕ :=
  let aimAngle : ℚ :=
    match attack.predictive, target.lastInput with
    | true, some input =>
      let playerVel := normalizeVec2 o input.moveDirection
      let playerSpeed := target.getEffectiveSpeed tbl
      let timeToHit := o.sqrt (distSq e.position target.position) /
        attack.projectileSpeed
      let predictedX := target.position.x + playerVel.x * playerSpeed * timeToHit
      let predictedY := target.position.y + playerVel.y * playerSpeed * timeToHit
      o.atan2 (predictedY - e.position.y) (predictedX - e.position.x)
    | _, _ =>
      o.atan2 (target.position.y - e.position.y)
        (target.position.x - e.position.x)
  let damage := attack.damageLo + tape.headD 0 * (attack.damageHi - attack.damageLo)
  let arcGapRad := attack.arcGap * o.pi / 180
  let angles := fireAttackAngles arcGapRad attack.numProjectiles aimAngle
  let projs := angles.enum.map (fun ia =>
    mkProjectile o ("proj-" ++ toString (idCtr + ia.1)) e.id Side.enemy
      attack.projectileId e.position ia.2 attack.projectileSpeed
      ((⌊damage⌋ : ℤ) : ℚ) false (attack.range / attack.projectileSpeed) now)
  (projs, tape.tail, idCtr + attack.numProjectiles)

/-- Source: `EnemyEntity.tryAttack`; rest suppression, per-attack
cooldowns, phase attack-index gating, and range checks (squared). -/
def EnemyE.tryAttack (tbl : Tables) (o : Oracle) (tgt : Option PlayerE)
    (e : EnemyE) (now : ℚ) (tape : List ℚ) (idCtr : ℕ) :
    EnemyE × List Projectile × List ℚ × ℕ :=
  match tgt with
  | none => (e, [], tape, idCtr)
  | some target =>
    let currentPhase := e.getCurrentPhase
    if currentPhase.isSome && e.isResting then (e, [], tape, idCtr)
    else
      let d2 := distSq e.position target.position
      (List.range e.defn.attacks.length).foldl
        (fun acc i =>
          let (e1, projs, tape1, ctr1) := acc
          let allowed :=
            match currentPhase with
            | none => true
            | some cp => cp.attackIndices.contains i
          if !allowed then acc
          else
            match e1.defn.attacks.get? i with
            | none => acc
            | some attack =>
              let lastAttack := e1.lastAttackTimes.getD i 0
              let fireInterval := 1000 / attack.rateOfFire
              if fireInterval ≤ now - lastAttack ∧
                  d2 ≤ attack.range * attack.range then
                let (newProjs, tape2, ctr2) :=
                  e1.fireAttack tbl o target attack now tape1 ctr1
                ({ e1 with lastAttackTimes := e1.lastAttackTimes.set i now },
                  projs ++ newProjs, tape2, ctr2)
              else acc)
        (e, [], tape, idCtr)

/-- Source: `EnemyEntity.update`; target acquisition, behavior, phase
update (only for phased enemies), attack scheduling. -/
def EnemyE.update (tbl : Tables) (o : Oracle) (m : GameMap)
    (players : List PlayerE) (e : EnemyE) (dt now : ℚ) (tape : List ℚ)
    (idCtr : ℕ) : EnemyE × List Projectile × List ℚ × ℕ :=
  let e1 := e.updateTarget players
  let tgt := e1.targetPlayer.bind
    (fun tid => players.find? (fun p => p.id = tid))
  let b := e1.executeBehavior o m tgt dt tape
  let e3 := if b.1.defn.phases ≠ [] then b.1.updatePhase dt else b.1
  e3.tryAttack tbl o tgt now b.2 idCtr

/-! ## Instance -/

/-- Instance kind.  The `Instance` class declares
`'nexus' | 'realm' | 'dungeon'`, but the running `GameServer` also
constructs instances with the runtime tag `'vault'`
(`new Instance('vault', ...)` in `getOrCreateVaultInstance`), so the
embedded kind carries all four runtime values. -/
inductive InstanceKind where
  | nexus
  | realm
  | dungeon
  | vault
  deriving DecidableEq, Repr

/-- One spawn region of a map (source: `SpawnRegion`). -/
structure SpawnRegion where
  x : ℚ
  y : ℚ
  width : ℚ
  height : ℚ
  enemyTypes : List String
  maxEnemies : ℕ
  spawnRate : ℚ
  deriving DecidableEq, Repr

/-- Events emitted by a tick of the instance (source: the `send` /
`broadcast` calls and the `GameServer` callbacks inside `Instance`).
Only the payload fields the claims mention are carried. -/
inductive GEvent where
  | damageEvent (targetId : String) (amount newHp : ℚ)
  | deathEvent (entityId : String)
  | levelUpEvent (playerId : String) (newLevel : ℕ)
  | lootSpawnEvent (lootId : String) (ownerId : Option String)
  | dungeonPortalSpawned (position : Vec2)
  | bossKilledNotice (position : Vec2)
  | playerDeathNotice (playerId : String)
  deriving DecidableEq, Repr

/-- Per-world simulation state (source: `Instance` fields, with the
spawn regions living on the map object).  The `tape` (random stream) and
`idCtr` (uuid source) are the oracle parts of the model. -/
structure InstanceState where
  id : String
  kind : InstanceKind
  map : GameMap
  regions : List SpawnRegion
  players : List PlayerE
  enemies : List EnemyE
  projectiles : List Projectile
  loots : List Loot
  portals : List Portal
  spawnTimers : List ℚ
  safeZone : Bool
  sourceInstanceId : Option String
  bossKilled : Bool
  initialSpawnDone : Bool
  tape : List ℚ
  idCtr : ℕ

/-- Source: `Instance` constructor; the safe-zone flag is set exactly
for the nexus kind, and one spawn timer per region starts at 0. -/
def mkInstance (kind : InstanceKind) (m : GameMap)
    (regions : List SpawnRegion) (id : String) : InstanceState :=
  { id := id
    kind := kind
    map := m
    regions := regions
    players := []
    enemies := []
    projectiles := []
    loots := []
    portals := []
    spawnTimers := regions.map (fun _ => 0)
    safeZone := kind = InstanceKind.nexus
    sourceInstanceId := none
    bossKilled := false
    initialSpawnDone := false
    tape := []
    idCtr := 0 }

/-- Source: `Instance.healPlayer`; 20% of max hp and mp per second,
clamped at the maxima, each applied only while below the maximum. -/
def healPlayer (p : PlayerE) (dt : ℚ) : PlayerE :=
  let hpRegen := p.maxHp * (2/10) * dt
  let mpRegen := p.maxMp * (2/10) * dt
  let p1 := if p.hp < p.maxHp then { p with hp := min p.maxHp (p.hp + hpRegen) }
            else p
  if p1.mp < p1.maxMp then { p1 with mp := min p1.maxMp (p1.mp + mpRegen) }
  else p1

/-- State threaded through combat resolution apart from the projectile
and opposing-entity lists being folded over. -/
structure CombatSt where
  players : List PlayerE
  loots : List Loot
  portals : List Portal
  events : List GEvent
  bossKilled : Bool
  tape : List ℚ
  idCtr : ℕ

/-- Source: `Instance.handleEnemyDeath`; marks the enemy, awards kill xp
(with the `levelUp` notification), rolls the loot table into soulbound
per-qualified-player bags or one public bag, runs the demon-portal and
dungeon-boss specials, and broadcasts the death event. -/
def handleEnemyDeath (tbl : Tables) (kind : InstanceKind)
    (sourceInstanceId : Option String) (now : ℚ) (st : CombatSt)
    (e : EnemyE) (killerId : String) : CombatSt × EnemyE :=
  let e1 := { e with markedForRemoval := true }
  let st :=
    match st.players.find? (fun p => p.id = killerId) with
    | none => st
    | some killer =>
      let (leveled, killer1) := killer.addExp tbl e1.defn.xpReward
      let players1 := st.players.map
        (fun p => if p.id = killerId then killer1 else p)
      let events1 :=
        if leveled then
          st.events ++ [GEvent.levelUpEvent killer1.id killer1.level]
        else st.events
      { st with players := players1, events := events1 }
  let qualified := e1.getQualifiedPlayers
  let st := e1.defn.lootTable.foldl
    (fun (st : CombatSt) entry =>
      let roll := st.tape.headD 0
      let st1 := { st with tape := st.tape.tail }
      if roll < entry.chance then
        let isSoulbound := ((tbl.items entry.itemId).map
          (fun it => it.soulbound)).getD false
        if isSoulbound then
          qualified.foldl
            (fun (st2 : CombatSt) pid =>
              let loot := mkLoot ("loot-" ++ toString st2.idCtr)
                entry.itemId e1.position 60 (some pid) true now
              { st2 with
                loots := st2.loots ++ [loot]
                events := st2.events ++ [GEvent.lootSpawnEvent loot.id (some pid)]
                idCtr := st2.idCtr + 1 }) st1
        else
          let loot := mkLoot ("loot-" ++ toString st1.idCtr)
            entry.itemId e1.position 60 none false now
          { st1 with
            loots := st1.loots ++ [loot]
            events := st1.events ++ [GEvent.lootSpawnEvent loot.id none]
            idCtr := st1.idCtr + 1 }
      else st1) st
  let st :=
    if e1.definitionId = "demon" ∧ kind = InstanceKind.realm then
      let roll := st.tape.headD 0
      let st1 := { st with tape := st.tape.tail }
      if roll < 1/10 then
        let dungeonId := "dungeon-" ++ toString st1.idCtr
        let portal := mkPortal ("portal-" ++ toString (st1.idCtr + 1))
          e1.position dungeonId "dungeon" "Demon Lair" (some 120) now
        { st1 with
          portals := st1.portals ++ [portal]
          events := st1.events ++ [GEvent.dungeonPortalSpawned e1.position]
          idCtr := st1.idCtr + 2 }
      else st1
    else st
  let (st, bossNow) :=
    if e1.definitionId = "dungeon_boss" ∧ kind = InstanceKind.dungeon ∧
        ¬st.bossKilled then
      let portal :=
        match sourceInstanceId with
        | none =>
          mkPortal ("portal-" ++ toString st.idCtr) e1.position
            "nexus-main" "nexus" "Return Portal" none now
        | some sid =>
          mkPortal ("portal-" ++ toString st.idCtr) e1.position sid
            (if sid = "nexus-main" then "nexus" else "realm")
            "Return Portal" none now
      ({ st with
         portals := st.portals ++ [portal]
         events := st.events ++ [GEvent.bossKilledNotice e1.position]
         idCtr := st.idCtr + 1 }, true)
    else (st, st.bossKilled)
  ({ st with
     bossKilled := bossNow
     events := st.events ++ [GEvent.deathEvent e1.id] }, e1)

/-- Inner loop of `Instance.resolveCombat` for a player-owned projectile:
walk the enemy collection in order, skipping removed or already-hit
targets, dealing damage and recording hits on circle overlap, and running
enemy-death handling on lethal hits.  Note that the projectile's own
removal mark is not re-examined inside this loop. -/
def projVsEnemies (tbl : Tables) (kind : InstanceKind)
    (sourceInstanceId : Option String) (now : ℚ) (proj : Projectile)
    (todo : List EnemyE) (st : CombatSt) :
    Projectile × List EnemyE × CombatSt :=
  match todo with
  | [] => (proj, [], st)
  | e :: rest =>
    if e.markedForRemoval then
      let r := projVsEnemies tbl kind sourceInstanceId now proj rest st
      (r.1, e :: r.2.1, r.2.2)
    else if proj.hasHit e.id then
      let r := projVsEnemies tbl kind sourceInstanceId now proj rest st
      (r.1, e :: r.2.1, r.2.2)
    else if collides proj.position proj.radius e.position e.radius then
      let td := e.takeDamage proj.damage (some proj.ownerId)
      let e1 := td.2
      let proj1 := proj.recordHit e.id
      let st1 := { st with
        events := st.events ++ [GEvent.damageEvent e1.id td.1 e1.hp] }
      if e1.hp ≤ 0 then
        let de := handleEnemyDeath tbl kind sourceInstanceId now st1
          e1 proj.ownerId
        let r := projVsEnemies tbl kind sourceInstanceId now proj1 rest de.1
        (r.1, de.2 :: r.2.1, r.2.2)
      else
        let r := projVsEnemies tbl kind sourceInstanceId now proj1 rest st1
        (r.1, e1 :: r.2.1, r.2.2)
    else
      let r := projVsEnemies tbl kind sourceInstanceId now proj rest st
      (r.1, e :: r.2.1, r.2.2)

/-- Part of `Instance.handlePlayerDeath` visible in instance state:
mark the player and emit the death broadcast plus the server callback. -/
def markPlayerDead (p : PlayerE) (events : List GEvent) :
    PlayerE × List GEvent :=
  ({ p with markedForRemoval := true },
   events ++ [GEvent.deathEvent p.id, GEvent.playerDeathNotice p.id])

/-- Inner loop of `Instance.resolveCombat` for an enemy-owned projectile:
walk the player collection in order; the projectile's removal mark is
likewise not re-examined inside the loop. -/
def projVsPlayers (tbl : Tables) (now : ℚ) (proj : Projectile)
    (todo : List PlayerE) (events : List GEvent) :
    Projectile × List PlayerE × List GEvent :=
  match todo with
  | [] => (proj, [], events)
  | p :: rest =>
    if p.markedForRemoval then
      let r := projVsPlayers tbl now proj rest events
      (r.1, p :: r.2.1, r.2.2)
    else if proj.hasHit p.id then
      let r := projVsPlayers tbl now proj rest events
      (r.1, p :: r.2.1, r.2.2)
    else if collides proj.position proj.radius p.position p.radius then
      let td := p.takeDamage tbl proj.damage now
      let p1 := td.2
      let proj1 := proj.recordHit p.id
      let events1 := events ++ [GEvent.damageEvent p1.id td.1 p1.hp]
      if p1.hp ≤ 0 then
        let dd := markPlayerDead p1 events1
        let r := projVsPlayers tbl now proj1 rest dd.2
        (r.1, dd.1 :: r.2.1, r.2.2)
      else
        let r := projVsPlayers tbl now proj1 rest events1
        (r.1, p1 :: r.2.1, r.2.2)
    else
      let r := projVsPlayers tbl now proj rest events
      (r.1, p :: r.2.1, r.2.2)

/-- Source: `Instance.resolveCombat`; every live projectile is tested
against every opposed-side entity, in collection order. -/
def resolveCombat (tbl : Tables) (kind : InstanceKind)
    (sourceInstanceId : Option String) (now : ℚ)
    (projectiles : List Projectile) (enemies : List EnemyE)
    (st : CombatSt) : List Projectile × List EnemyE × CombatSt :=
  match projectiles with
  | [] => ([], enemies, st)
  | proj :: rest =>
    if proj.markedForRemoval then
      let r := resolveCombat tbl kind sourceInstanceId now rest enemies st
      (proj :: r.1, r.2.1, r.2.2)
    else
      match proj.ownerType with
      | Side.player =>
        let h := projVsEnemies tbl kind sourceInstanceId now proj enemies st
        let r := resolveCombat tbl kind sourceInstanceId now rest h.2.1 h.2.2
        (h.1 :: r.1, r.2.1, r.2.2)
      | Side.enemy =>
        let h := projVsPlayers tbl now proj st.players st.events
        let st1 := { st with players := h.2.1, events := h.2.2 }
        let r := resolveCombat tbl kind sourceInstanceId now rest enemies st1
        (h.1 :: r.1, r.2.1, r.2.2)

/-- Source: `GameMap.findRandomPositionInRegion`; up to 20 random
samples inside the region rectangle, accepting floor and boss-floor
tiles. -/
def findRandomPositionInRegion (m : GameMap) (region : SpawnRegion)
    (tape : List ℚ) (attempts : ℕ) : Option Vec2 × List ℚ :=
  match attempts with
  | 0 => (none, tape)
  | n + 1 =>
    let x := region.x + tape.headD 0 * region.width
    let y := region.y + tape.tail.headD 0 * region.height
    let tape1 := tape.tail.tail
    let t := m.getTile x y
    if t = TileType.floor ∨ t = TileType.bossFloor then (some ⟨x, y⟩, tape1)
    else findRandomPositionInRegion m region tape1 n

/-- Source: `Instance.updateSpawns`; per-region timers, the population
cap, and a weighted-by-position random enemy type.  Unknown enemy
definitions (which would throw in the source constructor) spawn
nothing. -/
def updateSpawns (tbl : Tables) (o : Oracle) (m : GameMap)
    (regions : List SpawnRegion) (kind : InstanceKind)
    (initialSpawnDone : Bool) (dt : ℚ) (enemies : List EnemyE)
    (spawnTimers : List ℚ) (tape : List ℚ) (idCtr : ℕ) :
    List EnemyE × List ℚ × List ℚ × ℕ :=
  if kind = InstanceKind.dungeon ∧ initialSpawnDone then
    (enemies, spawnTimers, tape, idCtr)
  else
    (List.range regions.length).foldl
      (fun acc i =>
        let (enemies1, timers1, tape1, ctr1) := acc
        match regions.get? i with
        | none => acc
        | some region =>
          let timer := timers1.getD i 0 + dt
          let enemiesInRegion := (enemies1.filter (fun e =>
            region.x ≤ e.position.x ∧ e.position.x < region.x + region.width ∧
            region.y ≤ e.position.y ∧ e.position.y < region.y + region.height)).length
          let spawnInterval := 1 / region.spawnRate
          if spawnInterval ≤ timer ∧ enemiesInRegion < region.maxEnemies then
            let (pos?, tape2) := findRandomPositionInRegion m region tape1 20
            match pos? with
            | none => (enemies1, timers1.set i 0, tape2, ctr1)
            | some pos =>
              let idx := (⌊tape2.headD 0 * region.enemyTypes.length⌋).toNat
              let tape3 := tape2.tail
              match region.enemyTypes.get? idx with
              | none => (enemies1, timers1.set i 0, tape3, ctr1)
              | some enemyType =>
                match tbl.enemies enemyType with
                | none => (enemies1, timers1.set i 0, tape3, ctr1)
                | some defn =>
                  let (newEnemy, tape4) := mkEnemyE o
                    ("enemy-" ++ toString ctr1) enemyType defn pos tape3
                  (enemies1 ++ [newEnemy], timers1.set i 0, tape4, ctr1 + 1)
          else (enemies1, timers1.set i timer, tape1, ctr1))
      (enemies, spawnTimers, tape, idCtr)

/-- Source: `Instance.cleanupEntities`; drains remove-flagged entities
from every container. -/
def cleanupEntities (s : InstanceState) : InstanceState :=
  { s with
    projectiles := s.projectiles.filter (fun p => !p.markedForRemoval)
    enemies := s.enemies.filter (fun e => !e.markedForRemoval)
    loots := s.loots.filter (fun l => !l.markedForRemoval)
    players := s.players.filter (fun p => !p.markedForRemoval)
    portals := s.portals.filter (fun p => !p.markedForRemoval) }

/-- Enemy part of the entity-tick stage of `Instance.update`: each enemy
updates in collection order, accumulating the projectiles its attacks
spawned (which join the projectile collection before the projectile
stage, as with JS `Map` insertion order). -/
def enemyStage (tbl : Tables) (o : Oracle) (m : GameMap)
    (players : List PlayerE) (enemies : List EnemyE) (dt now : ℚ)
    (tape : List ℚ) (ctr : ℕ) :
    List EnemyE × List Projectile × List ℚ × ℕ :=
  match enemies with
  | [] => ([], [], tape, ctr)
  | e :: rest =>
    let u := e.update tbl o m players dt now tape ctr
    let r := enemyStage tbl o m players rest dt now u.2.2.1 u.2.2.2
    (u.1 :: r.1, u.2.1 ++ r.2.1, r.2.2)

/-- Projectile part of the entity-tick stage of `Instance.update`:
ballistic update plus the wall kill. -/
def projectileStage (m : GameMap) (prs : List Projectile) (dt now : ℚ) :
    List Projectile :=
  prs.map (fun pr =>
    let pr1 := pr.update dt now
    if !(m.isWalkable pr1.position.x pr1.position.y) then
      { pr1 with markedForRemoval := true }
    else pr1)

/-- Source: `Instance.update` (snapshot emission, a pure network output,
is not part of the state and is omitted).  Stage order: entity updates
(players with safe-zone healing, enemies with their spawned projectiles,
projectiles with the wall kill, loots, portals), then combat resolution
and the spawn scheduler — both only outside safe zones — then cleanup. -/
def instanceUpdate (tbl : Tables) (o : Oracle) (s : InstanceState)
    (dt now : ℚ) : InstanceState × List GEvent :=
  let players1 := s.players.map (fun p =>
    let p1 := p.update tbl o s.map dt now
    if s.safeZone then healPlayer p1 dt else p1)
  let enemyStep :=
    enemyStage tbl o s.map players1 s.enemies dt now s.tape s.idCtr
  let enemies1 := enemyStep.1
  let projectiles1 := projectileStage s.map (s.projectiles ++ enemyStep.2.1) dt now
  let loots1 := s.loots.map (fun l => l.update now)
  let portals1 := s.portals.map (fun p => p.update now)
  let tape1 := enemyStep.2.2.1
  let ctr1 := enemyStep.2.2.2
  let combatSt : CombatSt :=
    { players := players1, loots := loots1, portals := portals1,
      events := [], bossKilled := s.bossKilled, tape := tape1,
      idCtr := ctr1 }
  let afterCombat :=
    if !s.safeZone then
      let c := resolveCombat tbl s.kind s.sourceInstanceId now projectiles1
        enemies1 combatSt
      let sp := updateSpawns tbl o s.map s.regions s.kind s.initialSpawnDone
        dt c.2.1 s.spawnTimers c.2.2.tape c.2.2.idCtr
      (c.1, sp.1, sp.2.1,
        { c.2.2 with tape := sp.2.2.1, idCtr := sp.2.2.2 })
    else (projectiles1, enemies1, s.spawnTimers, combatSt)
  let st4 := afterCombat.2.2.2
  let s1 : InstanceState :=
    { s with
      players := st4.players
      enemies := afterCombat.2.1
      projectiles := afterCombat.1
      loots := st4.loots
      portals := st4.portals
      spawnTimers := afterCombat.2.2.1
      bossKilled := st4.bossKilled
      tape := st4.tape
      idCtr := st4.idCtr }
  (cleanupEntities s1, st4.events)

/-- Pickup interaction range in tiles (source: `PICKUP_RANGE`). -/
def PICKUP_RANGE : ℚ := 1

/-- Portal interaction range in tiles (source:
`PORTAL_INTERACT_RANGE`). -/
def PORTAL_INTERACT_RANGE : ℚ := 3/2

/-- Source: `Instance.tryPickupLoot`; bag lookup, soulbound-owner check,
range check (squared), then first-item pickup via `addToInventory` and
`removeItem(0)`.  Returns the success flag, the updated player and the
updated loot collection. -/
def tryPickupLoot (p : PlayerE) (loots : List Loot) (lootId : String) :
    Bool × PlayerE × List Loot :=
  match loots.find? (fun l => l.id = lootId) with
  | none => (false, p, loots)
  | some loot =>
    if loot.soulbound ∧ loot.ownerId ≠ some p.id then (false, p, loots)
    else if PICKUP_RANGE * PICKUP_RANGE < distSq p.position loot.position then
      (false, p, loots)
    else
      match loot.items.head? with
      | none => (false, p, loots)
      | some firstItem =>
        let (added, p1) := p.addToInventory firstItem
        if added then
          let (_, loot1) := loot.removeItem 0
          (true, p1,
           loots.map (fun l => if l.id = lootId then loot1 else l))
        else (false, p, loots)

/-- Source: `Instance.tryEnterPortal`; returns the portal exactly when it
exists and the player is within `PORTAL_INTERACT_RANGE` (squared
comparison); the portal's visibility, expiry and removal mark are never
consulted. -/
def tryEnterPortal (p : PlayerE) (portals : List Portal)
    (portalId : String) : Option Portal :=
  match portals.find? (fun q => q.id = portalId) with
  | none => none
  | some portal =>
    if PORTAL_INTERACT_RANGE * PORTAL_INTERACT_RANGE <
        distSq p.position portal.position then none
    else some portal

/-- Teleport case of `Instance.executeAbility`; the target point along
the aim direction (its cosine and sine supplied by the oracle) is taken
only when `canMoveTo` accepts it. -/
def teleportStep (o : Oracle) (m : GameMap) (p : PlayerE) (range : ℚ) :
    PlayerE :=
  match p.lastInput with
  | none => p
  | some input =>
    let targetX := p.position.x + o.cos input.aimAngle * range
    let targetY := p.position.y + o.sin input.aimAngle * range
    if m.canMoveTo targetX targetY p.radius then
      { p with position := ⟨targetX, targetY⟩ }
    else p

/-! ## GameServer: item swapping -/

/-- Equipment slot kinds in slot order (source: `slotTypes` in
`handleSwapItems`). -/
def slotTypes : List String := ["weapon", "ability", "armor", "ring"]

/-- Resolved slot reference (source: the `getSlot` helper returning the
backing array and index). -/
inductive SlotRef where
  | equip (i : ℕ)
  | inv (i : ℕ)
  deriving DecidableEq, Repr

/-- Source: the `getSlot` helper of `handleSwapItems`: slots 0–3 map to
equipment, 4–11 to inventory, all others are invalid. -/
def getSlot (slot : ℤ) : Option SlotRef :=
  if 0 ≤ slot ∧ slot < 4 then some (SlotRef.equip slot.toNat)
  else if 4 ≤ slot ∧ slot < 12 then some (SlotRef.inv (slot - 4).toNat)
  else none

/-- Read `ref.array[ref.index]`. -/
def slotRead (p : PlayerE) : SlotRef → Option String
  | SlotRef.equip i => p.equipment.getD i none
  | SlotRef.inv i => p.inventory.getD i none

/-- Write `ref.array[ref.index] = v`. -/
def slotWrite (p : PlayerE) (r : SlotRef) (v : Option String) : PlayerE :=
  match r with
  | SlotRef.equip i => { p with equipment := p.equipment.set i v }
  | SlotRef.inv i => { p with inventory := p.inventory.set i v }

/-- Source: the `isValidForEquipmentSlot` helper of `handleSwapItems`:
`null` always fits, unknown items never fit, the item kind must match
the slot kind, and weapon/ability/armor slots additionally require the
class-compatible subtype (an id missing from the subtype table passes,
matching the `weapon && ...` guards). -/
def isValidForEquipmentSlot (tbl : Tables) (cls : ClassDef)
    (itemId : Option String) (equipSlot : ℕ) : Bool :=
  match itemId with
  | none => true
  | some iid =>
    match tbl.items iid with
    | none => false
    | some item =>
      if item.itemKind ≠ slotTypes.getD equipSlot "" then false
      else if equipSlot = 0 then
        match tbl.weapons iid with
        | none => true
        | some w => w.weaponKind = cls.weaponType
      else if equipSlot = 1 then
        match tbl.abilities iid with
        | none => true
        | some a => a.abilityKind = cls.abilityType
      else if equipSlot = 2 then
        match tbl.armors iid with
        | none => true
        | some a => a.armorKind = cls.armorType
      else true

/-- Source: `GameServer.handleSwapItems` (the current, validating
version).  Self-swaps, invalid slots, unknown classes and slot- or
class-incompatible placements are silently rejected.  The subsequent
hp/mp clamp of the source mutates only `hp`/`mp` (via
`getEffectiveMaxHp`/`getEffectiveMaxMp`, whose definitions are not part
of the sources), never the equipment or inventory arrays, so this
embedding returns the layout effect of the handler. -/
def handleSwapItems (tbl : Tables) (p : PlayerE) (fromSlot toSlot : ℤ) :
    PlayerE :=
  if fromSlot = toSlot then p
  else
    match getSlot fromSlot, getSlot toSlot with
    | some fr, some tr =>
      match tbl.classes p.classId with
      | none => p
      | some cls =>
        let okTo : Bool :=
          if toSlot < 4 then
            isValidForEquipmentSlot tbl cls (slotRead p fr) toSlot.toNat
          else true
        let okFrom : Bool :=
          if fromSlot < 4 then
            isValidForEquipmentSlot tbl cls (slotRead p tr) fromSlot.toNat
          else true
        if okTo && okFrom then
          let a := slotRead p fr
          let b := slotRead p tr
          slotWrite (slotWrite p fr b) tr a
        else p
    | _, _ => p

/-! ## GameServer: authentication responses -/

/-- Payload of an `authResult` / `registerResult` message (success flag
and optional error string). -/
structure AuthResultData where
  success : Bool
  error : Option String
  deriving DecidableEq, Repr

/-- Source: `GameServer.handleAuth`; the rate-limit outcome, the login
lookup and the session creation are inputs (the latter two are results
of the external persistence interface). -/
def handleAuth (rateOk : Bool) (username password : String)
    (loginResult : Option String) (sessionToken : Option String) :
    AuthResultData :=
  if !rateOk then
    ⟨false, some "Too many login attempts. Try again later."⟩
  else if username.length < 3 ∨ 20 < username.length then
    ⟨false, some "Invalid username or password"⟩
  else if password.length = 0 ∨ 100 < password.length then
    ⟨false, some "Invalid username or password"⟩
  else
    match loginResult with
    | none => ⟨false, some "Invalid username or password"⟩
    | some _ =>
      match sessionToken with
      | none => ⟨false, some "Failed to create session"⟩
      | some _ => ⟨true, none⟩

/-- Source: `GameServer.handleAuthToken`; the session validation result
is an input. -/
def handleAuthToken (rateOk : Bool) (sessionResult : Option String) :
    AuthResultData :=
  if !rateOk then
    ⟨false, some "Too many login attempts. Try again later."⟩
  else
    match sessionResult with
    | none => ⟨false, some "Invalid or expired session"⟩
    | some _ => ⟨true, none⟩

/-- Source: `GameServer.validateCredentials`; returns the error string
of the first failing rule, if any. -/
def validateCredentials (username password : String) : Option String :=
  if username.length < 3 ∨ 20 < username.length then
    some "Username must be 3-20 characters"
  else if !(username.toList.all (fun c => c.isAlphanum || c = '_')) then
    some "Username can only contain letters, numbers, and underscores"
  else if password.length < 6 ∨ 100 < password.length then
    some "Password must be 6-100 characters"
  else none

/-- Source: `GameServer.handleRegister`; the account-creation result is
an input (`none` when the username is already taken). -/
def handleRegister (rateOk : Bool) (username password : String)
    (createResult : Option String) : AuthResultData :=
  if !rateOk then
    ⟨false, some "Too many attempts. Try again later."⟩
  else
    match validateCredentials username password with
    | some err => ⟨false, some err⟩
    | none =>
      match createResult with
      | none => ⟨false, some "Username already taken"⟩
      | some _ => ⟨true, none⟩

/-! ## Content-table fragment

Concrete rows copied from `shared/src/definitions.ts`, restricted to the
entries consulted by the concrete theorems below. -/

/-- Source: `CLASSES.wizard` (per-level stats and equipment types). -/
def wizardClass : ClassDef :=
  { hpPerLevel := 5, mpPerLevel := 5, attackPerLevel := 2,
    defensePerLevel := 0, speedPerLevel := 1, dexterityPerLevel := 2,
    vitalityPerLevel := 1, wisdomPerLevel := 2, weaponType := "staff",
    abilityType := "spell", armorType := "robe" }

/-- Fragment of the content tables with the rows used by the concrete
theorems: the wizard class, the `starter_leather` armor item and the
`starter_staff` weapon item. -/
def tablesFragment : Tables :=
  { classes := fun id => if id = "wizard" then some wizardClass else none
    items := fun id =>
      if id = "starter_leather" then
        some { itemKind := "armor", soulbound := true }
      else if id = "starter_staff" then
        some { itemKind := "weapon", soulbound := true }
      else none
    weapons := fun id =>
      if id = "starter_staff" then some { weaponKind := "staff" } else none
    abilities := fun _ => none
    armors := fun id =>
      if id = "starter_leather" then
        some { armorKind := "leather", defense := 5 }
      else none
    rings := fun _ => none
    enemies := fun _ => none }

/-! ## Theorems -/

/-- C2, counterexample: the claim says that with an even projectile
count no projectile is fired exactly at the aim angle.  In the code the
even-count offset does the opposite: for `numProjectiles = 2`,
`arcGapRad = 1` and aim angle 0, the second projectile of the fan fires
at exactly the aim angle 0. -/
theorem c2_counterexample : (0 : ℚ) ∈ fireAttackAngles 1 2 0 := by
  have h2 : List.range 2 = [0, 1] := by decide
  simp only [fireAttackAngles, h2, List.map_cons, List.map_nil]
  norm_num

/-- C2 (amended): for every arc gap, aim angle and positive projectile
count — odd or even — the projectile at fan index `n / 2` fires exactly
at the aim angle (the even-count half-gap offset centers one projectile
on the target rather than opening a safe corridor), and when the arc gap
is nonzero it is the only projectile with that property. -/
theorem c2_fan_centered_on_aim (g aim : ℚ) (n : ℕ) (hn : 0 < n) :
    (fireAttackAngles g n aim).get? (n / 2) = some aim ∧
    (g ≠ 0 → ∀ i, i < n →
      (fireAttackAngles g n aim).get? i = some aim → i = n / 2) := by
  have hlt : n / 2 < n := Nat.div_lt_self hn (by norm_num)
  have hval : ∀ i : ℕ, i < n → (fireAttackAngles g n aim).get? i =
      some (aim - (g * ((n : ℚ) - 1)) / 2 -
        (if n % 2 = 0 then g / 2 else 0) + g * (i : ℚ)) := by
    intro i hi
    simp only [fireAttackAngles, List.get?_eq_getElem?,
      List.getElem?_map, List.getElem?_range hi, Option.map_some']
  have hcenter : aim - (g * ((n : ℚ) - 1)) / 2 -
      (if n % 2 = 0 then g / 2 else 0) + g * ((n / 2 : ℕ) : ℚ) = aim := by
    rcases Nat.even_or_odd n with he | ho
    · obtain ⟨k, hk⟩ := he
      have hmod : n % 2 = 0 := by omega
      have hdiv : n / 2 = k := by omega
      have hcast : (n : ℚ) = 2 * (k : ℚ) := by
        rw [hk]; push_cast; ring
      rw [hmod, hdiv, hcast]
      norm_num
      ring
    · obtain ⟨k, hk⟩ := ho
      have hmod : ¬ n % 2 = 0 := by omega
      have hdiv : n / 2 = k := by omega
      have hcast : (n : ℚ) = 2 * (k : ℚ) + 1 := by
        rw [hk]; push_cast; ring
      rw [if_neg hmod, hdiv, hcast]
      ring
  constructor
  · rw [hval (n / 2) hlt, hcenter]
  · intro hg i hi hsome
    rw [hval i hi] at hsome
    have heq : aim - (g * ((n : ℚ) - 1)) / 2 -
        (if n % 2 = 0 then g / 2 else 0) + g * (i : ℚ) = aim := by
      exact Option.some_injective _ hsome
    have : g * (i : ℚ) = g * ((n / 2 : ℕ) : ℚ) := by
      have := hcenter
      linarith [heq, hcenter]
    have hcast : (i : ℚ) = ((n / 2 : ℕ) : ℚ) :=
      mul_left_cancel₀ hg this
    exact_mod_cast hcast

/-- C2, witness: the amended theorem applied to a concrete three-way fan
with unit arc gap aimed at angle 0. -/
theorem c2_witness :
    (fireAttackAngles 1 3 0).get? (3 / 2) = some 0 ∧
    ((1 : ℚ) ≠ 0 → ∀ i, i < 3 →
      (fireAttackAngles 1 3 0).get? i = some 0 → i = 3 / 2) :=
  c2_fan_centered_on_aim 1 0 3 (by norm_num)

/-- Last-writer fold over an index range: when at least one index
qualifies, the fold result is the largest qualifying index. -/
theorem foldl_last_qualifying (Q : ℕ → Prop) [DecidablePred Q] :
    ∀ n : ℕ, (∃ k, k < n ∧ Q k) →
      (((List.range n).foldl (fun acc i => if Q i then i else acc) 0) < n ∧
       Q ((List.range n).foldl (fun acc i => if Q i then i else acc) 0) ∧
       ∀ j, j < n → Q j →
         j ≤ (List.range n).foldl (fun acc i => if Q i then i else acc) 0) := by
  intro n
  induction n with
  | zero => rintro ⟨k, hk, _⟩; omega
  | succ n ih =>
    intro hex
    rw [List.range_succ, List.foldl_append, List.foldl_cons, List.foldl_nil]
    by_cases hQ : Q n
    · rw [if_pos hQ]
      exact ⟨Nat.lt_succ_self n, hQ, fun j hj _ => Nat.lt_succ_iff.mp hj⟩
    · rw [if_neg hQ]
      obtain ⟨k, hk, hQk⟩ := hex
      have hkn : k < n := by
        rcases Nat.lt_succ_iff_lt_or_eq.mp hk with h | h
        · exact h
        · exact absurd (h ▸ hQk) hQ
      obtain ⟨h1, h2, h3⟩ := ih ⟨k, hkn, hQk⟩
      refine ⟨Nat.lt_succ_of_lt h1, h2, fun j hj hQj => ?_⟩
      have hjn : j < n := by
        rcases Nat.lt_succ_iff_lt_or_eq.mp hj with h | h
        · exact h
        · exact absurd (h ▸ hQj) hQ
      exact h3 j hjn hQj

/-- The phase index after `updatePhase` is exactly the selection-loop
result; the attack/rest timer logic never changes it. -/
theorem updatePhase_currentPhaseIndex (e : EnemyE) (dt : ℚ) :
    (e.updatePhase dt).currentPhaseIndex =
      computePhaseIndex e.defn.phases (e.hp / e.maxHp * 100) := by
  simp only [EnemyE.updatePhase]
  split <;> split <;> split <;> simp_all

/-- C8 (confirmed): after each phase update of a phased enemy, the
current phase index is the largest index whose `hpPercent` threshold is
at least the current hp percentage (whenever some index qualifies, as is
always the case for the content's descending thresholds starting at
100), and on a phase change the phase timer restarts and the enemy is in
the attacking state (shown here for a tick shorter than the new phase's
attack window, after which the freshly restarted timer has only
accumulated the tick itself). -/
theorem c8_phase_selection (e : EnemyE) (dt : ℚ) (k : ℕ)
    (hk : k < e.defn.phases.length)
    (hq : e.hp / e.maxHp * 100 ≤ (e.defn.phases.getD k dummyPhase).hpPercent) :
    ((e.updatePhase dt).currentPhaseIndex < e.defn.phases.length ∧
     e.hp / e.maxHp * 100 ≤
       (e.defn.phases.getD (e.updatePhase dt).currentPhaseIndex
         dummyPhase).hpPercent ∧
     ∀ j, j < e.defn.phases.length →
       e.hp / e.maxHp * 100 ≤ (e.defn.phases.getD j dummyPhase).hpPercent →
       j ≤ (e.updatePhase dt).currentPhaseIndex) ∧
    (computePhaseIndex e.defn.phases (e.hp / e.maxHp * 100) ≠
        e.currentPhaseIndex →
     dt < (e.defn.phases.getD
        (computePhaseIndex e.defn.phases (e.hp / e.maxHp * 100))
        dummyPhase).attackDuration →
     (e.updatePhase dt).isResting = false ∧
       (e.updatePhase dt).phaseTimer = dt) := by
  constructor
  · rw [updatePhase_currentPhaseIndex]
    exact foldl_last_qualifying
      (fun i => e.hp / e.maxHp * 100 ≤ (e.defn.phases.getD i dummyPhase).hpPercent)
      e.defn.phases.length ⟨k, hk, hq⟩
  · intro hne hdt
    have hnotle : ¬ ((e.defn.phases[computePhaseIndex e.defn.phases
        (e.hp / e.maxHp * 100)]?.getD dummyPhase).attackDuration ≤ dt) := by
      rw [← List.getD_eq_getElem?_getD]
      exact not_le.mpr hdt
    simp [EnemyE.updatePhase, if_pos hne, hnotle]

/-- Two-phase boss definition used by the concrete phase theorems:
thresholds stored in descending order (100, then 66). -/
def bossDef : EnemyDef :=
  { hp := 100, defense := 0, speed := 1, radius := 1/2, xpReward := 20,
    behavior := Behavior.stationary, attacks := [],
    phases := [⟨100, 3, 2, [0]⟩, ⟨66, 3, 2, [0, 1]⟩], lootTable := [] }

/-- A concrete boss at 50% hp, still in phase index 0. -/
def bossAt50 : EnemyE :=
  { id := "e-boss", definitionId := "cube_overlord", defn := bossDef,
    position := ⟨0, 0⟩, radius := 1/2, hp := 50, maxHp := 100,
    targetPlayer := none, lastAttackTimes := [], wanderTarget := none,
    wanderTimer := 0, orbitAngle := 0, currentPhaseIndex := 0,
    phaseTimer := 0, isResting := false, damageByPlayer := [],
    markedForRemoval := false }

/-- C8, witness: the phase-selection theorem applied to the concrete
boss at 50% hp updating over a 50 ms tick. -/
theorem c8_witness :
    ((bossAt50.updatePhase (1/20)).currentPhaseIndex <
        bossAt50.defn.phases.length ∧
     bossAt50.hp / bossAt50.maxHp * 100 ≤
       (bossAt50.defn.phases.getD (bossAt50.updatePhase (1/20)).currentPhaseIndex
         dummyPhase).hpPercent ∧
     ∀ j, j < bossAt50.defn.phases.length →
       bossAt50.hp / bossAt50.maxHp * 100 ≤
         (bossAt50.defn.phases.getD j dummyPhase).hpPercent →
       j ≤ (bossAt50.updatePhase (1/20)).currentPhaseIndex) ∧
    (computePhaseIndex bossAt50.defn.phases
        (bossAt50.hp / bossAt50.maxHp * 100) ≠ bossAt50.currentPhaseIndex →
     (1/20 : ℚ) < (bossAt50.defn.phases.getD
        (computePhaseIndex bossAt50.defn.phases
          (bossAt50.hp / bossAt50.maxHp * 100))
        dummyPhase).attackDuration →
     (bossAt50.updatePhase (1/20)).isResting = false ∧
       (bossAt50.updatePhase (1/20)).phaseTimer = 1/20) :=
  c8_phase_selection bossAt50 (1/20) 0
    (by norm_num [bossAt50, bossDef])
    (by norm_num [bossAt50, bossDef, dummyPhase])

/-- A fresh level-1 wizard (base stats from `CLASSES.wizard`), used by
the concrete theorems. -/
def samplePlayer : PlayerE :=
  { id := "p1", classId := "wizard", position := ⟨0, 0⟩, radius := 7/20,
    level := 1, exp := 0, hp := 100, maxHp := 100, mp := 100, maxMp := 100,
    attack := 15, defense := 0, speed := 10, dexterity := 15,
    vitality := 10, wisdom := 15,
    equipment := [some "starter_staff", none, none, none],
    inventory := [none, none, none, none, none, none, none, none],
    lastHitTime := 0, hpRegenAccum := 0, mpRegenAccum := 0,
    activeBuffs := [], lastInput := none, markedForRemoval := false }

/-- C4, counterexample: the claim places the level-up trigger at
`floor(100 · 1.2^(level−1))`, which is 100 exp for a level-1 player; but
a level-1 player who gains 100 exp does not level up — the code requires
`getExpForLevel(level+1) = floor(100 · 1.2^level) = 120`. -/
theorem c4_counterexample :
    (samplePlayer.addExp tablesFragment 100).1 = false ∧
    (⌊(100 : ℚ) * (6/5) ^ (samplePlayer.level - 1)⌋ : ℚ) ≤
      samplePlayer.exp + 100 := by
  constructor
  · have h120 : getExpForLevel 2 = 120 := by
      norm_num [getExpForLevel]
    norm_num [samplePlayer, PlayerE.addExp, MAX_LEVEL, h120]
  · norm_num [samplePlayer]

/-- C4 (amended): for a player below the maximum level, adding XP levels
the player up exactly when the accumulated exp reaches
`getExpForLevel(level+1) = floor(100 · 1.2^level)`; on level-up the
level increments, the six base stats grow by the class per-level
amounts, hp/mp refill to the new maxima and exp resets to 0, and the
enemy-death handler emits the `levelUp` event exactly when the XP award
levelled the killer up; without a level-up only the exp accumulates. -/
theorem c4_levelup (tbl : Tables) (p : PlayerE) (amount : ℚ)
    (hlevel : p.level < MAX_LEVEL) :
    ((p.addExp tbl amount).1 = true ↔
      ((⌊(100 : ℚ) * (6/5) ^ p.level⌋ : ℚ) ≤ p.exp + amount)) ∧
    (∀ cls, tbl.classes p.classId = some cls →
      (p.addExp tbl amount).1 = true →
      ((p.addExp tbl amount).2.level = p.level + 1 ∧
       (p.addExp tbl amount).2.exp = 0 ∧
       (p.addExp tbl amount).2.maxHp = p.maxHp + cls.hpPerLevel ∧
       (p.addExp tbl amount).2.hp = (p.addExp tbl amount).2.maxHp ∧
       (p.addExp tbl amount).2.maxMp = p.maxMp + cls.mpPerLevel ∧
       (p.addExp tbl amount).2.mp = (p.addExp tbl amount).2.maxMp ∧
       (p.addExp tbl amount).2.attack = p.attack + cls.attackPerLevel ∧
       (p.addExp tbl amount).2.defense = p.defense + cls.defensePerLevel ∧
       (p.addExp tbl amount).2.speed = p.speed + cls.speedPerLevel ∧
       (p.addExp tbl amount).2.dexterity = p.dexterity + cls.dexterityPerLevel ∧
       (p.addExp tbl amount).2.vitality = p.vitality + cls.vitalityPerLevel ∧
       (p.addExp tbl amount).2.wisdom = p.wisdom + cls.wisdomPerLevel)) ∧
    ((p.addExp tbl amount).1 = false →
      (p.addExp tbl amount).2 = { p with exp := p.exp + amount }) ∧
    (∀ (e : EnemyE) (st : CombatSt) (kind : InstanceKind)
        (src : Option String) (now : ℚ),
      st.players = [p] →
      e.defn.lootTable = [] →
      e.definitionId ≠ "demon" →
      e.definitionId ≠ "dungeon_boss" →
      e.defn.xpReward = amount →
      (handleEnemyDeath tbl kind src now st e p.id).1.events =
        (if (p.addExp tbl amount).1 then
          st.events ++ [GEvent.levelUpEvent (p.addExp tbl amount).2.id
            (p.addExp tbl amount).2.level]
        else st.events) ++ [GEvent.deathEvent e.id]) := by
  have hmax : ¬ MAX_LEVEL ≤ p.level := not_le.mpr hlevel
  have hexp : getExpForLevel (p.level + 1) =
      ⌊(100 : ℚ) * (6/5) ^ p.level⌋ := by
    simp [getExpForLevel]
  refine ⟨?_, ?_, ?_, ?_⟩
  · simp only [PlayerE.addExp, if_neg hmax, hexp]
    split
    · next hle => simpa using hle
    · next hle => simpa using hle
  · intro cls hcls htrue
    simp only [PlayerE.addExp, if_neg hmax] at htrue ⊢
    split at htrue
    · next hle =>
      simp only [if_pos hle, PlayerE.levelUp, hcls]
      norm_num
    · simp at htrue
  · intro hfalse
    simp only [PlayerE.addExp, if_neg hmax] at hfalse ⊢
    split at hfalse
    · simp at hfalse
    · next hle => simp [if_neg hle]
  · intro e st kind src now hplayers hloot hdemon hboss hxp
    have hfind : st.players.find? (fun q => q.id = p.id) = some p := by
      rw [hplayers]; simp
    simp only [handleEnemyDeath, hfind, hloot, List.foldl_nil, hxp]
    rcases hadd : p.addExp tbl amount with ⟨lev, q⟩
    cases lev <;> simp [hadd, hdemon, hboss, EnemyE.getQualifiedPlayers]

/-- C4, witness: the level-up theorem applied to the concrete level-1
wizard gaining 120 exp. -/
theorem c4_witness :
    ((samplePlayer.addExp tablesFragment 120).1 = true ↔
      ((⌊(100 : ℚ) * (6/5) ^ samplePlayer.level⌋ : ℚ) ≤
        samplePlayer.exp + 120)) ∧
    (∀ cls, tablesFragment.classes samplePlayer.classId = some cls →
      (samplePlayer.addExp tablesFragment 120).1 = true →
      ((samplePlayer.addExp tablesFragment 120).2.level = samplePlayer.level + 1 ∧
       (samplePlayer.addExp tablesFragment 120).2.exp = 0 ∧
       (samplePlayer.addExp tablesFragment 120).2.maxHp = samplePlayer.maxHp + cls.hpPerLevel ∧
       (samplePlayer.addExp tablesFragment 120).2.hp = (samplePlayer.addExp tablesFragment 120).2.maxHp ∧
       (samplePlayer.addExp tablesFragment 120).2.maxMp = samplePlayer.maxMp + cls.mpPerLevel ∧
       (samplePlayer.addExp tablesFragment 120).2.mp = (samplePlayer.addExp tablesFragment 120).2.maxMp ∧
       (samplePlayer.addExp tablesFragment 120).2.attack = samplePlayer.attack + cls.attackPerLevel ∧
       (samplePlayer.addExp tablesFragment 120).2.defense = samplePlayer.defense + cls.defensePerLevel ∧
       (samplePlayer.addExp tablesFragment 120).2.speed = samplePlayer.speed + cls.speedPerLevel ∧
       (samplePlayer.addExp tablesFragment 120).2.dexterity = samplePlayer.dexterity + cls.dexterityPerLevel ∧
       (samplePlayer.addExp tablesFragment 120).2.vitality = samplePlayer.vitality + cls.vitalityPerLevel ∧
       (samplePlayer.addExp tablesFragment 120).2.wisdom = samplePlayer.wisdom + cls.wisdomPerLevel)) ∧
    ((samplePlayer.addExp tablesFragment 120).1 = false →
      (samplePlayer.addExp tablesFragment 120).2 =
        { samplePlayer with exp := samplePlayer.exp + 120 }) ∧
    (∀ (e : EnemyE) (st : CombatSt) (kind : InstanceKind)
        (src : Option String) (now : ℚ),
      st.players = [samplePlayer] →
      e.defn.lootTable = [] →
      e.definitionId ≠ "demon" →
      e.definitionId ≠ "dungeon_boss" →
      e.defn.xpReward = 120 →
      (handleEnemyDeath tablesFragment kind src now st e samplePlayer.id).1.events =
        (if (samplePlayer.addExp tablesFragment 120).1 then
          st.events ++ [GEvent.levelUpEvent
            (samplePlayer.addExp tablesFragment 120).2.id
            (samplePlayer.addExp tablesFragment 120).2.level]
        else st.events) ++ [GEvent.deathEvent e.id]) :=
  c4_levelup tablesFragment samplePlayer 120
    (by norm_num [samplePlayer, MAX_LEVEL])

/-- C7, counterexample: registering an already-taken username is not
answered with the generic "Invalid username or password" — the code
sends "Username already taken", revealing that the account exists. -/
theorem c7_counterexample :
    handleRegister true "alice" "secret123" none =
      ⟨false, some "Username already taken"⟩ ∧
    ("Username already taken" : String) ≠ "Invalid username or password" := by
  constructor
  · decide
  · decide

/-- C7 (amended): with the rate limit passed, bad credentials on `auth`
(failed validation or failed login) are answered with the generic
"Invalid username or password"; but an invalid or expired token on
`authToken` is answered with "Invalid or expired session", and an
already-existing username on `register` (with otherwise valid
credentials) is answered with "Username already taken" — the register
response does reveal that the account exists. -/
theorem c7_auth_messages :
    (∀ (username password : String) (login tok : Option String),
      (username.length < 3 ∨ 20 < username.length ∨
       password.length = 0 ∨ 100 < password.length ∨ login = none) →
      handleAuth true username password login tok =
        ⟨false, some "Invalid username or password"⟩) ∧
    (handleAuthToken true none =
      ⟨false, some "Invalid or expired session"⟩) ∧
    (∀ (username password : String),
      validateCredentials username password = none →
      handleRegister true username password none =
        ⟨false, some "Username already taken"⟩) := by
  refine ⟨?_, by simp [handleAuthToken], ?_⟩
  · intro username password login tok hbad
    simp only [handleAuth, Bool.not_true, Bool.false_eq_true, if_false]
    by_cases h1 : username.length < 3 ∨ 20 < username.length
    · rw [if_pos h1]
    · rw [if_neg h1]
      by_cases h2 : password.length = 0 ∨ 100 < password.length
      · rw [if_pos h2]
      · rw [if_neg h2]
        match login with
        | none => rfl
        | some acct =>
          rcases hbad with h | h | h | h | h
          · exact absurd (Or.inl h) h1
          · exact absurd (Or.inr h) h1
          · exact absurd (Or.inl h) h2
          · exact absurd (Or.inr h) h2
          · exact absurd h (by simp)
  · intro username password hvalid
    simp [handleRegister, hvalid]

/-- C7, witness: the message theorem applied at a failed login, a failed
token validation and a taken username. -/
theorem c7_witness :
    handleAuth true "bob" "secret123" none none =
      ⟨false, some "Invalid username or password"⟩ ∧
    handleAuthToken true none =
      ⟨false, some "Invalid or expired session"⟩ ∧
    handleRegister true "carol" "secret123" none =
      ⟨false, some "Username already taken"⟩ :=
  ⟨c7_auth_messages.1 "bob" "secret123" none none (by simp),
   c7_auth_messages.2.1,
   c7_auth_messages.2.2 "carol" "secret123" (by decide)⟩

/-- C10 (confirmed): `tryEnterPortal` returns the looked-up portal for
any player within `PORTAL_INTERACT_RANGE`, with no condition on the
portal's blink-visibility flag, its expiry, or its removal mark (the
quantification is over portals with arbitrary such fields); and a portal
whose expiry has passed is only marked for removal by its update — id,
position and expiry stay, so until the cleanup drain it can still be
entered. -/
theorem c10_portal_entry :
    (∀ (p : PlayerE) (portals : List Portal) (portalId : String)
        (q : Portal),
      portals.find? (fun x => x.id = portalId) = some q →
      distSq p.position q.position ≤
        PORTAL_INTERACT_RANGE * PORTAL_INTERACT_RANGE →
      tryEnterPortal p portals portalId = some q) ∧
    (∀ (q : Portal) (now expiry : ℚ), q.expiresAt = some expiry →
      expiry ≤ now →
      ((q.update now).markedForRemoval = true ∧ (q.update now).id = q.id ∧
       (q.update now).position = q.position ∧
       (q.update now).expiresAt = q.expiresAt)) := by
  constructor
  · intro p portals portalId q hfind hdist
    simp only [tryEnterPortal, hfind]
    rw [if_neg (not_lt.mpr hdist)]
  · intro q now expiry hexp hle
    simp only [Portal.update, hexp]
    rw [if_pos (by linarith : expiry - now ≤ 0)]
    exact ⟨rfl, rfl, rfl, rfl⟩

/-- An expired, blink-hidden, already remove-flagged dungeon portal used
by the concrete portal theorems. -/
def expiredPortal : Portal :=
  { id := "portal-1", position := ⟨0, 0⟩, radius := 1/2,
    targetInstance := "dungeon-1", targetType := "dungeon",
    name := "Demon Lair", expiresAt := some 1000, visible := false,
    markedForRemoval := true }

/-- C10, witness: the portal theorem applied to a player standing on an
expired, invisible, remove-flagged portal — it is still returned. -/
theorem c10_witness :
    tryEnterPortal samplePlayer [expiredPortal] "portal-1" =
      some expiredPortal ∧
    ((expiredPortal.update 2000).markedForRemoval = true ∧
     (expiredPortal.update 2000).id = expiredPortal.id ∧
     (expiredPortal.update 2000).position = expiredPortal.position ∧
     (expiredPortal.update 2000).expiresAt = expiredPortal.expiresAt) :=
  ⟨c10_portal_entry.1 samplePlayer [expiredPortal] "portal-1" expiredPortal
    (by simp [expiredPortal])
    (by norm_num [distSq, samplePlayer, expiredPortal,
      PORTAL_INTERACT_RANGE]),
   c10_portal_entry.2 expiredPortal 2000 1000 rfl (by norm_num)⟩

/-- Out-of-bounds coordinates read the `WALL` tile. -/
theorem getTile_out_of_bounds (m : GameMap) (x y : ℚ)
    (h : ⌊x⌋ < 0 ∨ (m.width : ℤ) ≤ ⌊x⌋ ∨ ⌊y⌋ < 0 ∨ (m.height : ℤ) ≤ ⌊y⌋) :
    m.getTile x y = TileType.wall := by
  simp only [GameMap.getTile]
  rw [if_pos h]

/-- Out-of-bounds coordinates are not walkable. -/
theorem isWalkable_out_of_bounds (m : GameMap) (x y : ℚ)
    (h : ⌊x⌋ < 0 ∨ (m.width : ℤ) ≤ ⌊x⌋ ∨ ⌊y⌋ < 0 ∨ (m.height : ℤ) ≤ ⌊y⌋) :
    m.isWalkable x y = false := by
  simp [GameMap.isWalkable, getTile_out_of_bounds m x y h]

/-- A position accepted by `canMoveTo` has its center inside the map
rectangle. -/
theorem canMoveTo_in_rect (m : GameMap) (x y radius : ℚ)
    (h : m.canMoveTo x y radius = true) :
    0 ≤ x ∧ x < m.width ∧ 0 ≤ y ∧ y < m.height := by
  have hwalk : m.isWalkable x y = true := by
    simp only [GameMap.canMoveTo, Bool.and_eq_true] at h
    exact h.1.1.1.1
  have hbound : ¬(⌊x⌋ < 0 ∨ (m.width : ℤ) ≤ ⌊x⌋ ∨ ⌊y⌋ < 0 ∨
      (m.height : ℤ) ≤ ⌊y⌋) := by
    intro hb
    rw [isWalkable_out_of_bounds m x y hb] at hwalk
    exact Bool.false_ne_true hwalk
  push_neg at hbound
  obtain ⟨h1, h2, h3, h4⟩ := hbound
  refine ⟨?_, ?_, ?_, ?_⟩
  · exact_mod_cast Int.le_floor.mp h1
  · have := Int.floor_lt.mp h2
    exact_mod_cast this
  · exact_mod_cast Int.le_floor.mp h3
  · have := Int.floor_lt.mp h4
    exact_mod_cast this

/-- C9 (confirmed): every coordinate outside the map bounds reads the
`WALL` tile and is unwalkable; every `canMoveTo`-accepted position lies
inside the map rectangle; and consequently both the wall-slide movement
step and the gated ability teleport keep an in-rectangle position inside
the map rectangle. -/
theorem c9_map_bounds :
    (∀ (m : GameMap) (x y : ℚ),
      (⌊x⌋ < 0 ∨ (m.width : ℤ) ≤ ⌊x⌋ ∨ ⌊y⌋ < 0 ∨ (m.height : ℤ) ≤ ⌊y⌋) →
      m.getTile x y = TileType.wall ∧ m.isWalkable x y = false) ∧
    (∀ (m : GameMap) (x y radius : ℚ), m.canMoveTo x y radius = true →
      0 ≤ x ∧ x < m.width ∧ 0 ≤ y ∧ y < m.height) ∧
    (∀ (m : GameMap) (pos : Vec2) (radius : ℚ) (dir : Vec2)
        (speed dt : ℚ),
      0 ≤ pos.x → pos.x < m.width → 0 ≤ pos.y → pos.y < m.height →
      0 ≤ (playerMoveStep m pos radius dir speed dt).x ∧
      (playerMoveStep m pos radius dir speed dt).x < m.width ∧
      0 ≤ (playerMoveStep m pos radius dir speed dt).y ∧
      (playerMoveStep m pos radius dir speed dt).y < m.height) ∧
    (∀ (o : Oracle) (m : GameMap) (p : PlayerE) (range : ℚ),
      0 ≤ p.position.x → p.position.x < m.width → 0 ≤ p.position.y →
      p.position.y < m.height →
      0 ≤ (teleportStep o m p range).position.x ∧
      (teleportStep o m p range).position.x < m.width ∧
      0 ≤ (teleportStep o m p range).position.y ∧
      (teleportStep o m p range).position.y < m.height) := by
  refine ⟨?_, canMoveTo_in_rect, ?_, ?_⟩
  · intro m x y h
    exact ⟨getTile_out_of_bounds m x y h, isWalkable_out_of_bounds m x y h⟩
  · intro m pos radius dir speed dt hx0 hxw hy0 hyh
    simp only [playerMoveStep]
    split
    · next h => exact canMoveTo_in_rect m _ _ _ h
    · split
      · next h =>
        obtain ⟨a, b, c, d⟩ := canMoveTo_in_rect m _ _ _ h
        exact ⟨a, b, c, d⟩
      · split
        · next h =>
          obtain ⟨a, b, c, d⟩ := canMoveTo_in_rect m _ _ _ h
          exact ⟨a, b, c, d⟩
        · exact ⟨hx0, hxw, hy0, hyh⟩
  · intro o m p range hx0 hxw hy0 hyh
    cases hin : p.lastInput with
    | none => simp only [teleportStep, hin]; exact ⟨hx0, hxw, hy0, hyh⟩
    | some input =>
      simp only [teleportStep, hin]
      split
      · next h => exact canMoveTo_in_rect m _ _ _ h
      · exact ⟨hx0, hxw, hy0, hyh⟩

/-- A 10×10 all-floor map used by the concrete theorems. -/
def sampleMap : GameMap :=
  { width := 10, height := 10, tiles := fun _ => TileType.floor }

/-- A concrete oracle instance (any rational-valued stand-ins will do:
all oracle-quantified theorems hold for every oracle). -/
def sampleOracle : Oracle :=
  { pi := 3, sqrt := fun _ => 0, cos := fun _ => 1, sin := fun _ => 0,
    atan2 := fun _ _ => 0 }

/-- C9, witness: the map-bounds theorem applied at an out-of-bounds
column, an interior point, a concrete wall-slide step and a concrete
teleport. -/
theorem c9_witness :
    (sampleMap.getTile (-1) 5 = TileType.wall ∧
      sampleMap.isWalkable (-1) 5 = false) ∧
    (0 ≤ (5 : ℚ) ∧ (5 : ℚ) < sampleMap.width ∧ 0 ≤ (5 : ℚ) ∧
      (5 : ℚ) < sampleMap.height) ∧
    (0 ≤ (playerMoveStep sampleMap ⟨5, 5⟩ (7/20) ⟨1, 0⟩ 5 (1/20)).x ∧
      (playerMoveStep sampleMap ⟨5, 5⟩ (7/20) ⟨1, 0⟩ 5 (1/20)).x <
        sampleMap.width ∧
      0 ≤ (playerMoveStep sampleMap ⟨5, 5⟩ (7/20) ⟨1, 0⟩ 5 (1/20)).y ∧
      (playerMoveStep sampleMap ⟨5, 5⟩ (7/20) ⟨1, 0⟩ 5 (1/20)).y <
        sampleMap.height) ∧
    (0 ≤ (teleportStep sampleOracle sampleMap samplePlayer 3).position.x ∧
      (teleportStep sampleOracle sampleMap samplePlayer 3).position.x <
        sampleMap.width ∧
      0 ≤ (teleportStep sampleOracle sampleMap samplePlayer 3).position.y ∧
      (teleportStep sampleOracle sampleMap samplePlayer 3).position.y <
        sampleMap.height) :=
  ⟨c9_map_bounds.1 sampleMap (-1) 5 (by norm_num),
   c9_map_bounds.2.1 sampleMap 5 5 0
     (by norm_num [GameMap.canMoveTo, GameMap.isWalkable, GameMap.getTile,
       sampleMap]),
   c9_map_bounds.2.2.1 sampleMap ⟨5, 5⟩ (7/20) ⟨1, 0⟩ 5 (1/20)
     (by norm_num) (by norm_num [sampleMap]) (by norm_num)
     (by norm_num [sampleMap]),
   c9_map_bounds.2.2.2 sampleOracle sampleMap samplePlayer 3
     (by norm_num [samplePlayer]) (by norm_num [samplePlayer, sampleMap])
     (by norm_num [samplePlayer]) (by norm_num [samplePlayer, sampleMap])⟩

/-- The first-empty-slot search fails exactly when no inventory slot is
empty. -/
theorem findIdx?_none_iff_no_empty (l : List (Option String)) :
    l.findIdx? (fun s => s = none) = none ↔ ¬ none ∈ l := by
  rw [List.findIdx?_eq_none_iff]
  constructor
  · intro h hmem
    have := h none hmem
    simp at this
  · intro h x hx
    simp only [decide_eq_false_iff_not]
    intro heq
    exact h (heq ▸ hx)

/-- C5 (confirmed): for bags satisfying the data-model invariant that an
in-collection bag is nonempty, `tryPickupLoot` fails exactly when the
bag does not exist, is soulbound to another player, is out of
`PICKUP_RANGE`, or the inventory has no empty slot; failure leaves the
player and the bags unchanged; success removes the bag's first item into
the first empty inventory slot, and a bag emptied this way is flagged
for removal. -/
theorem c5_pickup (p : PlayerE) (loots : List Loot) (lootId : String)
    (hne : ∀ l ∈ loots, l.items ≠ []) :
    ((tryPickupLoot p loots lootId).1 = false ↔
      (loots.find? (fun l => l.id = lootId) = none ∨
       ∃ loot, loots.find? (fun l => l.id = lootId) = some loot ∧
         ((loot.soulbound ∧ loot.ownerId ≠ some p.id) ∨
          PICKUP_RANGE * PICKUP_RANGE < distSq p.position loot.position ∨
          ¬ none ∈ p.inventory))) ∧
    ((tryPickupLoot p loots lootId).1 = false →
      (tryPickupLoot p loots lootId).2.1 = p ∧
      (tryPickupLoot p loots lootId).2.2 = loots) ∧
    ((tryPickupLoot p loots lootId).1 = true →
      ∃ loot i,
        loots.find? (fun l => l.id = lootId) = some loot ∧
        p.inventory.findIdx? (fun s => s = none) = some i ∧
        (tryPickupLoot p loots lootId).2.1 =
          { p with inventory :=
            p.inventory.set i (some (loot.items.headD "")) } ∧
        (tryPickupLoot p loots lootId).2.2 =
          loots.map (fun l => if l.id = lootId then (loot.removeItem 0).2
            else l) ∧
        (loot.removeItem 0).2.items = loot.items.tail ∧
        (loot.items.tail = [] →
          (loot.removeItem 0).2.markedForRemoval = true)) := by
  rcases hfind : loots.find? (fun l => l.id = lootId) with _ | loot
  · have hres : tryPickupLoot p loots lootId = (false, p, loots) := by
      simp [tryPickupLoot, hfind]
    refine ⟨?_, fun _ => by rw [hres]; exact ⟨rfl, rfl⟩, fun habs => ?_⟩
    · rw [hres]
      exact iff_of_true rfl (Or.inl hfind)
    · rw [hres] at habs
      exact absurd habs (by simp)
  · have hmem : loot ∈ loots := List.mem_of_find?_eq_some hfind
    have hid : loot.id = lootId := by simpa using List.find?_some hfind
    have hnonnil : loot.items ≠ [] := hne loot hmem
    rcases hitems : loot.items with _ | ⟨h0, tl⟩
    · exact absurd hitems hnonnil
    by_cases hsoul : loot.soulbound ∧ loot.ownerId ≠ some p.id
    · have hres : tryPickupLoot p loots lootId = (false, p, loots) := by
        simp only [tryPickupLoot, hfind]
        rw [if_pos hsoul]
      refine ⟨?_, fun _ => by rw [hres]; exact ⟨rfl, rfl⟩, fun habs => ?_⟩
      · rw [hres]
        exact iff_of_true rfl (Or.inr ⟨loot, hfind, Or.inl hsoul⟩)
      · rw [hres] at habs
        exact absurd habs (by simp)
    · by_cases hdist : PICKUP_RANGE * PICKUP_RANGE <
          distSq p.position loot.position
      · have hres : tryPickupLoot p loots lootId = (false, p, loots) := by
          simp only [tryPickupLoot, hfind]
          rw [if_neg hsoul, if_pos hdist]
        refine ⟨?_, fun _ => by rw [hres]; exact ⟨rfl, rfl⟩, fun habs => ?_⟩
        · rw [hres]
          exact iff_of_true rfl (Or.inr ⟨loot, hfind, Or.inr (Or.inl hdist)⟩)
        · rw [hres] at habs
          exact absurd habs (by simp)
      · rcases hidx : p.inventory.findIdx? (fun s => s = none) with _ | i
        · have hnomem : ¬ none ∈ p.inventory :=
            (findIdx?_none_iff_no_empty p.inventory).mp hidx
          have hres : tryPickupLoot p loots lootId = (false, p, loots) := by
            simp only [tryPickupLoot, hfind]
            rw [if_neg hsoul, if_neg hdist]
            simp [hitems, PlayerE.addToInventory, hidx]
          refine ⟨?_, fun _ => by rw [hres]; exact ⟨rfl, rfl⟩,
            fun habs => ?_⟩
          · rw [hres]
            exact iff_of_true rfl
              (Or.inr ⟨loot, hfind, Or.inr (Or.inr hnomem)⟩)
          · rw [hres] at habs
            exact absurd habs (by simp)
        · have hmemN : none ∈ p.inventory := by
            by_contra hno
            rw [(findIdx?_none_iff_no_empty p.inventory).mpr hno] at hidx
            exact Option.noConfusion hidx
          have hres : tryPickupLoot p loots lootId =
              (true,
               { p with inventory := p.inventory.set i (some h0) },
               loots.map (fun l => if l.id = lootId then
                 (loot.removeItem 0).2 else l)) := by
            simp only [tryPickupLoot, hfind]
            rw [if_neg hsoul, if_neg hdist]
            simp [hitems, PlayerE.addToInventory, hidx]
          refine ⟨?_, fun habs => ?_, fun _ => ?_⟩
          · rw [hres]
            refine iff_of_false (by simp) ?_
            push_neg
            refine ⟨fun hnone => by rw [hfind] at hnone; exact Option.noConfusion hnone, ?_⟩
            intro loot2 hloot2
            have heq : loot2 = loot := by
              rw [hfind] at hloot2
              exact (Option.some_injective _ hloot2).symm
            subst heq
            exact ⟨fun hsb => not_not.mp (fun hne2 => hsoul ⟨hsb, hne2⟩),
              not_lt.mp hdist, hmemN⟩
          · rw [hres] at habs
            exact absurd habs (by simp)
          · refine ⟨loot, i, hfind, hidx, ?_, ?_, ?_, ?_⟩
            · rw [hres]
              simp [hitems]
            · rw [hres]
            · simp only [Loot.removeItem, hitems]
              rw [if_neg (by simp)]
              split <;> simp
            · intro htl
              have htl2 : tl = [] := by simpa [hitems] using htl
              simp [Loot.removeItem, hitems, htl2]

/-- A concrete one-item public loot bag at the origin. -/
def sampleLoot : Loot :=
  { id := "loot-1", itemId := "starter_leather",
    items := ["starter_leather"], position := ⟨0, 0⟩, radius := 3/10,
    despawnTime := 60000, ownerId := none, soulbound := false,
    markedForRemoval := false }

/-- C5, witness: the pickup theorem applied to the sample player
standing on a concrete nonempty bag. -/
theorem c5_witness :
    ((tryPickupLoot samplePlayer [sampleLoot] "loot-1").1 = false ↔
      ([sampleLoot].find? (fun l => l.id = "loot-1") = none ∨
       ∃ loot, [sampleLoot].find? (fun l => l.id = "loot-1") = some loot ∧
         ((loot.soulbound ∧ loot.ownerId ≠ some samplePlayer.id) ∨
          PICKUP_RANGE * PICKUP_RANGE <
            distSq samplePlayer.position loot.position ∨
          ¬ none ∈ samplePlayer.inventory))) ∧
    ((tryPickupLoot samplePlayer [sampleLoot] "loot-1").1 = false →
      (tryPickupLoot samplePlayer [sampleLoot] "loot-1").2.1 = samplePlayer ∧
      (tryPickupLoot samplePlayer [sampleLoot] "loot-1").2.2 = [sampleLoot]) ∧
    ((tryPickupLoot samplePlayer [sampleLoot] "loot-1").1 = true →
      ∃ loot i,
        [sampleLoot].find? (fun l => l.id = "loot-1") = some loot ∧
        samplePlayer.inventory.findIdx? (fun s => s = none) = some i ∧
        (tryPickupLoot samplePlayer [sampleLoot] "loot-1").2.1 =
          { samplePlayer with inventory :=
            samplePlayer.inventory.set i (some (loot.items.headD "")) } ∧
        (tryPickupLoot samplePlayer [sampleLoot] "loot-1").2.2 =
          [sampleLoot].map (fun l => if l.id = "loot-1" then
            (loot.removeItem 0).2 else l) ∧
        (loot.removeItem 0).2.items = loot.items.tail ∧
        (loot.items.tail = [] →
          (loot.removeItem 0).2.markedForRemoval = true)) :=
  c5_pickup samplePlayer [sampleLoot] "loot-1"
    (by
      intro l hl
      rw [List.mem_singleton.mp hl]
      simp [sampleLoot])

/-- A projectile already flagged for removal stays flagged through the
enemy inner loop. -/
theorem projVsEnemies_marked_mono (tbl : Tables) (kind : InstanceKind)
    (src : Option String) (now : ℚ) :
    ∀ (todo : List EnemyE) (pr : Projectile) (st : CombatSt),
      pr.markedForRemoval = true →
      (projVsEnemies tbl kind src now pr todo st).1.markedForRemoval = true := by
  intro todo
  induction todo with
  | nil => intro pr st h; exact h
  | cons e rest ih =>
    intro pr st h
    rw [projVsEnemies]
    split
    · exact ih pr st h
    · split
      · exact ih pr st h
      · split
        · dsimp only
          split
          · exact ih _ _ (by simp [Projectile.recordHit, h])
          · exact ih _ _ (by simp [Projectile.recordHit, h])
        · exact ih pr st h

/-- Through the enemy inner loop, a non-piercing projectile either
records no hit at all or ends up flagged for removal. -/
theorem projVsEnemies_nonpiercing (tbl : Tables) (kind : InstanceKind)
    (src : Option String) (now : ℚ) :
    ∀ (todo : List EnemyE) (pr : Projectile) (st : CombatSt),
      pr.piercing = false →
      (projVsEnemies tbl kind src now pr todo st).1.hitEntities =
          pr.hitEntities ∨
        (projVsEnemies tbl kind src now pr todo st).1.markedForRemoval =
          true := by
  intro todo
  induction todo with
  | nil => intro pr st _; exact Or.inl rfl
  | cons e rest ih =>
    intro pr st hp
    rw [projVsEnemies]
    split
    · exact ih pr st hp
    · split
      · exact ih pr st hp
      · split
        · dsimp only
          split
          · right
            exact projVsEnemies_marked_mono tbl kind src now rest _ _
              (by simp [Projectile.recordHit, hp])
          · right
            exact projVsEnemies_marked_mono tbl kind src now rest _ _
              (by simp [Projectile.recordHit, hp])
        · exact ih pr st hp

/-- A projectile already flagged for removal stays flagged through the
player inner loop. -/
theorem projVsPlayers_marked_mono (tbl : Tables) (now : ℚ) :
    ∀ (todo : List PlayerE) (pr : Projectile) (events : List GEvent),
      pr.markedForRemoval = true →
      (projVsPlayers tbl now pr todo events).1.markedForRemoval = true := by
  intro todo
  induction todo with
  | nil => intro pr ev h; exact h
  | cons p rest ih =>
    intro pr ev h
    rw [projVsPlayers]
    split
    · exact ih pr ev h
    · split
      · exact ih pr ev h
      · split
        · dsimp only
          split
          · exact ih _ _ (by simp [Projectile.recordHit, h])
          · exact ih _ _ (by simp [Projectile.recordHit, h])
        · exact ih pr ev h

/-- Through the player inner loop, a non-piercing projectile either
records no hit at all or ends up flagged for removal. -/
theorem projVsPlayers_nonpiercing (tbl : Tables) (now : ℚ) :
    ∀ (todo : List PlayerE) (pr : Projectile) (events : List GEvent),
      pr.piercing = false →
      (projVsPlayers tbl now pr todo events).1.hitEntities =
          pr.hitEntities ∨
        (projVsPlayers tbl now pr todo events).1.markedForRemoval = true := by
  intro todo
  induction todo with
  | nil => intro pr ev _; exact Or.inl rfl
  | cons p rest ih =>
    intro pr ev hp
    rw [projVsPlayers]
    split
    · exact ih pr ev hp
    · split
      · exact ih pr ev hp
      · split
        · dsimp only
          split
          · right
            exact projVsPlayers_marked_mono tbl now rest _ _
              (by simp [Projectile.recordHit, hp])
          · right
            exact projVsPlayers_marked_mono tbl now rest _ _
              (by simp [Projectile.recordHit, hp])
        · exact ih pr ev hp

/-- C1 (amended): after combat resolution, every projectile that entered
already flagged for removal is untouched (it records no hits), and every
non-piercing projectile either recorded no hit in this pass or is
flagged for removal — so it records hits during at most one combat pass,
after which the cleanup stage drains it.  Within that single pass it may
record several simultaneously overlapping targets, so its hit set is not
bounded by one. -/
theorem c1_nonpiercing_single_pass (tbl : Tables) (kind : InstanceKind)
    (src : Option String) (now : ℚ) :
    ∀ (projectiles : List Projectile) (enemies : List EnemyE)
      (st : CombatSt),
      List.Forall₂
        (fun pr pr2 =>
          (pr.markedForRemoval = true → pr2 = pr) ∧
          (pr.piercing = false →
            pr2.hitEntities = pr.hitEntities ∨ pr2.markedForRemoval = true))
        projectiles
        (resolveCombat tbl kind src now projectiles enemies st).1 := by
  intro projectiles
  induction projectiles with
  | nil => intro enemies st; exact List.Forall₂.nil
  | cons proj rest ih =>
    intro enemies st
    rw [resolveCombat]
    split
    · next hmk =>
      exact List.Forall₂.cons
        ⟨fun _ => rfl, fun _ => Or.inl rfl⟩ (ih enemies st)
    · next hmk =>
      split
      · exact List.Forall₂.cons
          ⟨fun h => absurd h hmk,
           fun hp => projVsEnemies_nonpiercing tbl kind src now enemies
             proj st hp⟩
          (ih _ _)
      · exact List.Forall₂.cons
          ⟨fun h => absurd h hmk,
           fun hp => projVsPlayers_nonpiercing tbl now st.players proj
             st.events hp⟩
          (ih _ _)

/-- A concrete non-piercing player projectile at the origin. -/
def nonPiercingShot : Projectile :=
  { id := "proj-1", ownerId := "p1", ownerType := Side.player,
    definitionId := "magic_bolt", position := ⟨0, 0⟩, radius := 3/20,
    velocity := ⟨0, 0⟩, damage := 10, piercing := false, lifetime := 1,
    spawnTime := 0, hitEntities := [], markedForRemoval := false }

/-- A plain chasing-snake enemy definition with no drops. -/
def snakeDef : EnemyDef :=
  { hp := 1000, defense := 0, speed := 1, radius := 1/2, xpReward := 10,
    behavior := Behavior.wander, attacks := [], phases := [],
    lootTable := [] }

/-- First of two overlapping snakes at the origin. -/
def snakeA : EnemyE :=
  { id := "e1", definitionId := "snake", defn := snakeDef,
    position := ⟨0, 0⟩, radius := 1/2, hp := 1000, maxHp := 1000,
    targetPlayer := none, lastAttackTimes := [], wanderTarget := none,
    wanderTimer := 0, orbitAngle := 0, currentPhaseIndex := 0,
    phaseTimer := 0, isResting := false, damageByPlayer := [],
    markedForRemoval := false }

/-- Second of two overlapping snakes at the origin. -/
def snakeB : EnemyE := { snakeA with id := "e2" }

/-- The empty combat bookkeeping state. -/
def emptyCombatSt : CombatSt :=
  { players := [], loots := [], portals := [], events := [],
    bossKilled := false, tape := [], idCtr := 0 }

/-- C1, counterexample: one non-piercing projectile overlapping two live
enemies in the same tick records BOTH of them in its hit set (the inner
loop of `resolveCombat` never re-checks the projectile's removal mark),
and both enemies take damage — refuting `|hitSet| ≤ 1` and
"damages at most one target". -/
theorem c1_counterexample :
    ((resolveCombat tablesFragment InstanceKind.realm none 0
        [nonPiercingShot] [snakeA, snakeB] emptyCombatSt).1.map
      (fun pr => pr.hitEntities) = [["e1", "e2"]]) ∧
    ((resolveCombat tablesFragment InstanceKind.realm none 0
        [nonPiercingShot] [snakeA, snakeB] emptyCombatSt).2.1.map
      (fun e => e.hp) = [990, 990]) := by
  have hcol : collides nonPiercingShot.position nonPiercingShot.radius
      snakeA.position snakeA.radius = true := by
    norm_num [collides, distSq, nonPiercingShot, snakeA]
  have hne : ("e2" : String) ≠ "e1" := by decide
  constructor <;>
    norm_num [resolveCombat, projVsEnemies, nonPiercingShot, snakeA,
      snakeB, snakeDef, emptyCombatSt, collides, distSq,
      Projectile.hasHit, Projectile.recordHit, EnemyE.takeDamage, mapSet,
      max_def, hne]

/-- C1, witness: the single-pass theorem applied to the concrete
counterexample state; its first projectile entry satisfies both
implications. -/
theorem c1_witness :
    List.Forall₂
      (fun pr pr2 =>
        (pr.markedForRemoval = true → pr2 = pr) ∧
        (pr.piercing = false →
          pr2.hitEntities = pr.hitEntities ∨ pr2.markedForRemoval = true))
      [nonPiercingShot]
      (resolveCombat tablesFragment InstanceKind.realm none 0
        [nonPiercingShot] [snakeA, snakeB] emptyCombatSt).1 :=
  c1_nonpiercing_single_pass tablesFragment InstanceKind.realm none 0
    [nonPiercingShot] [snakeA, snakeB] emptyCombatSt

/-! ## C6: the double-swap property of handleSwapItems -/

/-- The slot reference points inside the corresponding backing array. -/
def refOk (p : PlayerE) : SlotRef → Prop
  | SlotRef.equip i => i < p.equipment.length
  | SlotRef.inv i => i < p.inventory.length

theorem list_getD_set_eq {α : Type} (l : List α) (i : ℕ) (v d : α)
    (h : i < l.length) : (l.set i v).getD i d = v := by
  simp [List.getD, List.getElem?_set_eq_of_lt v h]

theorem list_getD_set_ne {α : Type} (l : List α) (i j : ℕ) (v d : α)
    (hne : i ≠ j) : (l.set i v).getD j d = l.getD j d := by
  simp [List.getD, List.getElem?_set_ne hne]

theorem list_set_getD {α : Type} (l : List α) (i : ℕ) (d : α)
    (h : i < l.length) : l.set i (l.getD i d) = l := by
  apply List.ext_getElem?
  intro n
  by_cases hn : n = i
  · subst hn
    rw [List.getElem?_set_eq_of_lt _ h, List.getD_eq_getElem l d h,
      List.getElem?_eq_getElem h]
  · rw [List.getElem?_set_ne (fun hh => hn hh.symm)]

theorem slotWrite_classId (p : PlayerE) (r : SlotRef) (v : Option String) :
    (slotWrite p r v).classId = p.classId := by
  cases r <;> rfl

theorem refOk_slotWrite (p : PlayerE) (r r' : SlotRef) (v : Option String)
    (h : refOk p r') : refOk (slotWrite p r v) r' := by
  cases r' <;> cases r <;> simpa [refOk, slotWrite] using h

theorem slotRead_slotWrite_self (p : PlayerE) (r : SlotRef)
    (v : Option String) (h : refOk p r) :
    slotRead (slotWrite p r v) r = v := by
  cases r with
  | equip i => exact list_getD_set_eq p.equipment i v none h
  | inv i => exact list_getD_set_eq p.inventory i v none h

theorem slotRead_slotWrite_ne (p : PlayerE) (r r' : SlotRef)
    (v : Option String) (h : r ≠ r') :
    slotRead (slotWrite p r v) r' = slotRead p r' := by
  cases r with
  | equip i =>
    cases r' with
    | equip j =>
      have hij : i ≠ j := fun hh => h (by rw [hh])
      exact list_getD_set_ne p.equipment i j v none hij
    | inv j => rfl
  | inv i =>
    cases r' with
    | equip j => rfl
    | inv j =>
      have hij : i ≠ j := fun hh => h (by rw [hh])
      exact list_getD_set_ne p.inventory i j v none hij

theorem slotWrite_slotWrite_self (p : PlayerE) (r : SlotRef)
    (v w : Option String) :
    slotWrite (slotWrite p r v) r w = slotWrite p r w := by
  cases r <;> simp [slotWrite, List.set_set]

theorem slotWrite_comm (p : PlayerE) (r r' : SlotRef)
    (v w : Option String) (h : r ≠ r') :
    slotWrite (slotWrite p r v) r' w = slotWrite (slotWrite p r' w) r v := by
  cases r with
  | equip i =>
    cases r' with
    | equip j =>
      have hij : i ≠ j := fun hh => h (by rw [hh])
      show ({ p with equipment := (p.equipment.set i v).set j w } : PlayerE) =
        { p with equipment := (p.equipment.set j w).set i v }
      rw [List.set_comm _ _ _ hij]
    | inv j => rfl
  | inv i =>
    cases r' with
    | equip j => rfl
    | inv j =>
      have hij : i ≠ j := fun hh => h (by rw [hh])
      show ({ p with inventory := (p.inventory.set i v).set j w } : PlayerE) =
        { p with inventory := (p.inventory.set j w).set i v }
      rw [List.set_comm _ _ _ hij]

theorem slotWrite_slotRead_self (p : PlayerE) (r : SlotRef)
    (h : refOk p r) : slotWrite p r (slotRead p r) = p := by
  cases r with
  | equip i =>
    show ({ p with
      equipment := p.equipment.set i (p.equipment.getD i none) } : PlayerE) = p
    rw [list_set_getD _ _ _ h]
  | inv i =>
    show ({ p with
      inventory := p.inventory.set i (p.inventory.getD i none) } : PlayerE) = p
    rw [list_set_getD _ _ _ h]

theorem getSlot_cases {a : ℤ} {r : SlotRef} (h : getSlot a = some r) :
    (0 ≤ a ∧ a < 4 ∧ r = SlotRef.equip a.toNat) ∨
    (4 ≤ a ∧ a < 12 ∧ r = SlotRef.inv (a - 4).toNat) := by
  unfold getSlot at h
  split_ifs at h with h1 h2
  · exact Or.inl ⟨h1.1, h1.2, by injection h with hh; exact hh.symm⟩
  · exact Or.inr ⟨h2.1, h2.2, by injection h with hh; exact hh.symm⟩

theorem getSlot_ne {a b : ℤ} {r r' : SlotRef} (hab : a ≠ b)
    (ha : getSlot a = some r) (hb : getSlot b = some r') : r ≠ r' := by
  rcases getSlot_cases ha with ⟨h1, h2, h3⟩ | ⟨h1, h2, h3⟩ <;>
    rcases getSlot_cases hb with ⟨g1, g2, g3⟩ | ⟨g1, g2, g3⟩ <;>
    subst h3 <;> subst g3 <;> intro hc
  · injection hc with hc
    exact hab (by omega)
  · exact SlotRef.noConfusion hc
  · exact SlotRef.noConfusion hc
  · injection hc with hc
    exact hab (by omega)

theorem getSlot_refOk {p : PlayerE} {a : ℤ} {r : SlotRef}
    (heq : p.equipment.length = 4) (hinv : p.inventory.length = 8)
    (h : getSlot a = some r) : refOk p r := by
  rcases getSlot_cases h with ⟨h1, h2, h3⟩ | ⟨h1, h2, h3⟩ <;> subst h3
  · show a.toNat < p.equipment.length
    omega
  · show (a - 4).toNat < p.inventory.length
    omega

theorem handleSwapItems_self (tbl : Tables) (p : PlayerE) (a : ℤ) :
    handleSwapItems tbl p a a = p := by
  simp [handleSwapItems]

theorem handleSwapItems_none_left (tbl : Tables) (p : PlayerE)
    {a : ℤ} (b : ℤ) (h : getSlot a = none) :
    handleSwapItems tbl p a b = p := by
  by_cases hab : a = b
  · simp [handleSwapItems, hab]
  · simp only [handleSwapItems, if_neg hab, h]

theorem handleSwapItems_none_right (tbl : Tables) (p : PlayerE)
    (a : ℤ) {b : ℤ} (h : getSlot b = none) :
    handleSwapItems tbl p a b = p := by
  by_cases hab : a = b
  · simp [handleSwapItems, hab]
  · simp only [handleSwapItems, if_neg hab, h]
    cases getSlot a <;> rfl

theorem handleSwapItems_noClass (tbl : Tables) (p : PlayerE) {a b : ℤ}
    {fr tr : SlotRef} (hab : a ≠ b) (ha : getSlot a = some fr)
    (hb : getSlot b = some tr) (hc : tbl.classes p.classId = none) :
    handleSwapItems tbl p a b = p := by
  simp only [handleSwapItems, if_neg hab, ha, hb, hc]

theorem handleSwapItems_eq (tbl : Tables) (p : PlayerE) {a b : ℤ}
    {fr tr : SlotRef} {cls : ClassDef} (hab : a ≠ b)
    (ha : getSlot a = some fr) (hb : getSlot b = some tr)
    (hc : tbl.classes p.classId = some cls) :
    handleSwapItems tbl p a b =
      if ((if b < 4 then
            isValidForEquipmentSlot tbl cls (slotRead p fr) b.toNat
          else true) &&
          (if a < 4 then
            isValidForEquipmentSlot tbl cls (slotRead p tr) a.toNat
          else true)) then
        slotWrite (slotWrite p fr (slotRead p tr)) tr (slotRead p fr)
      else p := by
  simp only [handleSwapItems, if_neg hab, ha, hb, hc]

/-- A wizard whose weapon slot 0 illegally holds the armor item
`starter_leather`; such a layout is never produced by `handleSwapItems`
itself, but nothing in the handler's interface excludes it as an input. -/
def malformedPlayer : PlayerE :=
  { samplePlayer with
    equipment := [some "starter_leather", none, none, none],
    inventory := [none, none, none, none, none, none, none, none] }

/-- C6, counterexample: the claim asserts double-swap restoration for
EVERY player state.  For a player carrying an armor item in the weapon
slot, `swapItems(0,4)` succeeds (the validator only inspects the two
destination placements, and moving the invalid item out of slot 0 into
the inventory is fine), but the reverse `swapItems(4,0)` is rejected
(an armor item may not be placed into the weapon slot), so the layout
is not restored. -/
theorem c6_counterexample :
    (handleSwapItems tablesFragment
        (handleSwapItems tablesFragment malformedPlayer 0 4) 4 0).equipment ≠
      malformedPlayer.equipment := by
  decide

/-- C6 (amended): for every player state whose equipment layout is
well-formed - the equipment and inventory arrays have their nominal
lengths 4 and 8 and every currently equipped item is valid for the slot
it occupies - and for all slot indices `a`, `b`, performing
`swapItems(a,b)` followed by `swapItems(b,a)` restores the combined
equipment-and-inventory layout, whether each individual swap is applied
or silently rejected (self-swap, invalid slot, unknown class, or
class/slot-incompatible item).  The well-formedness hypothesis cannot be
dropped: see the counterexample with an armor item sitting in the
weapon slot. -/
theorem c6_double_swap (tbl : Tables) (p : PlayerE) (a b : ℤ)
    (heq : p.equipment.length = 4) (hinv : p.inventory.length = 8)
    (hwf : ∀ cls, tbl.classes p.classId = some cls → ∀ i, i < 4 →
      isValidForEquipmentSlot tbl cls (p.equipment.getD i none) i = true) :
    (handleSwapItems tbl (handleSwapItems tbl p a b) b a).equipment =
      p.equipment ∧
    (handleSwapItems tbl (handleSwapItems tbl p a b) b a).inventory =
      p.inventory := by
  have key : handleSwapItems tbl (handleSwapItems tbl p a b) b a = p := by
    by_cases hab : a = b
    · subst hab
      rw [handleSwapItems_self, handleSwapItems_self]
    · have hba : b ≠ a := fun hh => hab hh.symm
      rcases ha : getSlot a with _ | fr
      · rw [handleSwapItems_none_left tbl p b ha,
          handleSwapItems_none_right tbl p b ha]
      · rcases hb : getSlot b with _ | tr
        · rw [handleSwapItems_none_right tbl p a hb,
            handleSwapItems_none_left tbl p a hb]
        · rcases hc : tbl.classes p.classId with _ | cls
          · rw [handleSwapItems_noClass tbl p hab ha hb hc,
              handleSwapItems_noClass tbl p hba hb ha hc]
          · have hne : fr ≠ tr := getSlot_ne hab ha hb
            have hfrOk : refOk p fr := getSlot_refOk heq hinv ha
            have htrOk : refOk p tr := getSlot_refOk heq hinv hb
            have h1 := handleSwapItems_eq tbl p hab ha hb hc
            by_cases hok : ((if b < 4 then
                  isValidForEquipmentSlot tbl cls (slotRead p fr) b.toNat
                else true) &&
                (if a < 4 then
                  isValidForEquipmentSlot tbl cls (slotRead p tr) a.toNat
                else true)) = true
            · rw [if_pos hok] at h1
              rw [h1]
              have hvalA : (if a < 4 then isValidForEquipmentSlot tbl cls
                  (slotRead p fr) a.toNat else true) = true := by
                by_cases ha4 : a < 4
                · rw [if_pos ha4]
                  rcases getSlot_cases ha with ⟨x1, x2, x3⟩ | ⟨x1, x2, x3⟩
                  · subst x3
                    exact hwf cls hc a.toNat (by omega)
                  · exact absurd ha4 (by omega)
                · rw [if_neg ha4]
              have hvalB : (if b < 4 then isValidForEquipmentSlot tbl cls
                  (slotRead p tr) b.toNat else true) = true := by
                by_cases hb4 : b < 4
                · rw [if_pos hb4]
                  rcases getSlot_cases hb with ⟨x1, x2, x3⟩ | ⟨x1, x2, x3⟩
                  · subst x3
                    exact hwf cls hc b.toNat (by omega)
                  · exact absurd hb4 (by omega)
                · rw [if_neg hb4]
              have hcls1 : tbl.classes (slotWrite (slotWrite p fr
                  (slotRead p tr)) tr (slotRead p fr)).classId = some cls := by
                rw [slotWrite_classId, slotWrite_classId]
                exact hc
              have hr1 : slotRead (slotWrite (slotWrite p fr
                  (slotRead p tr)) tr (slotRead p fr)) tr = slotRead p fr :=
                slotRead_slotWrite_self _ tr _
                  (refOk_slotWrite _ fr tr _ htrOk)
              have hr2 : slotRead (slotWrite (slotWrite p fr
                  (slotRead p tr)) tr (slotRead p fr)) fr = slotRead p tr := by
                rw [slotRead_slotWrite_ne _ tr fr _ (fun hh => hne hh.symm),
                  slotRead_slotWrite_self _ fr _ hfrOk]
              have h2 := handleSwapItems_eq tbl (slotWrite (slotWrite p fr
                (slotRead p tr)) tr (slotRead p fr)) hba hb ha hcls1
              rw [hr1, hr2] at h2
              rw [h2, if_pos (by rw [hvalA, hvalB]; rfl)]
              rw [slotWrite_slotWrite_self]
              rw [slotWrite_comm p fr tr (slotRead p tr) (slotRead p tr) hne]
              rw [slotWrite_slotRead_self p tr htrOk]
              rw [slotWrite_slotWrite_self]
              rw [slotWrite_slotRead_self p fr hfrOk]
            · rw [if_neg hok] at h1
              rw [h1]
              have h2 := handleSwapItems_eq tbl p hba hb ha hc
              have hcond2 : ¬(((if a < 4 then
                    isValidForEquipmentSlot tbl cls (slotRead p tr) a.toNat
                  else true) &&
                  (if b < 4 then
                    isValidForEquipmentSlot tbl cls (slotRead p fr) b.toNat
                  else true)) = true) := by
                rw [Bool.and_comm]
                exact hok
              rw [h2, if_neg hcond2]
  exact ⟨congrArg PlayerE.equipment key, congrArg PlayerE.inventory key⟩

/-- C6, witness: the double-swap theorem applied to a fresh, well-formed
level-1 wizard and the slot pair (0, 4). -/
theorem c6_witness :
    (handleSwapItems tablesFragment
        (handleSwapItems tablesFragment samplePlayer 0 4) 4 0).equipment =
      samplePlayer.equipment ∧
    (handleSwapItems tablesFragment
        (handleSwapItems tablesFragment samplePlayer 0 4) 4 0).inventory =
      samplePlayer.inventory :=
  c6_double_swap tablesFragment samplePlayer 0 4 (by rfl) (by rfl)
    (by
      intro cls hcls i hi
      have hcw : wizardClass = cls := by
        have hh := hcls
        simp [tablesFragment, samplePlayer] at hh
        exact hh
      subst hcw
      interval_cases i <;> decide)

/-! ## C3: safe zones -/

theorem enemyStage_length (tbl : Tables) (o : Oracle) (m : GameMap)
    (players : List PlayerE) (enemies : List EnemyE) (dt now : ℚ)
    (tape : List ℚ) (ctr : ℕ) :
    (enemyStage tbl o m players enemies dt now tape ctr).1.length =
      enemies.length := by
  induction enemies generalizing tape ctr with
  | nil => rfl
  | cons e rest ih => simp [enemyStage, ih]

/-- C3, counterexample: the claim says vault instances are safe zones,
but the `Instance` constructor sets the flag only for the nexus kind,
and the vault is created with kind vault, so a vault instance runs the
full combat and spawn pipeline. -/
theorem c3_counterexample :
    (mkInstance InstanceKind.vault sampleMap [] "vault-1").safeZone =
      false := by
  rfl

/-- C3 (amended): the constructor raises the safe-zone flag exactly for
the NEXUS kind (not for the vault), and on every tick of an instance
whose flag is raised: no events are emitted (in particular no damage,
death or loot event — combat resolution is skipped), the spawn timers
are untouched, the surviving enemy count never grows (the spawn
scheduler is skipped), and every resident player is routed through
`healPlayer`, the 20%-of-maximum-per-second clamped regeneration, after
their ordinary update. -/
theorem c3_safe_zone (tbl : Tables) (o : Oracle) (s : InstanceState)
    (dt now : ℚ) (kind : InstanceKind) (m : GameMap)
    (regions : List SpawnRegion) (id : String)
    (hsafe : s.safeZone = true) :
    ((mkInstance kind m regions id).safeZone = true ↔
      kind = InstanceKind.nexus) ∧
    (instanceUpdate tbl o s dt now).2 = [] ∧
    (instanceUpdate tbl o s dt now).1.spawnTimers = s.spawnTimers ∧
    (instanceUpdate tbl o s dt now).1.players =
      (s.players.map (fun p =>
        healPlayer (p.update tbl o s.map dt now) dt)).filter
        (fun p => !p.markedForRemoval) ∧
    (instanceUpdate tbl o s dt now).1.enemies.length ≤
      s.enemies.length := by
  refine ⟨?_, ?_, ?_, ?_, ?_⟩
  · cases kind <;> simp [mkInstance]
  · simp [instanceUpdate, hsafe, cleanupEntities]
  · simp [instanceUpdate, hsafe, cleanupEntities]
  · simp [instanceUpdate, hsafe, cleanupEntities]
  · simp only [instanceUpdate, hsafe, Bool.not_true, Bool.false_eq_true,
      if_false, if_true, cleanupEntities]
    exact le_trans (List.length_filter_le _ _)
      (le_of_eq (enemyStage_length _ _ _ _ _ _ _ _ _))

/-- C3, witness: the safe-zone tick theorem applied to a fresh nexus
instance (whose flag is raised by construction) and the vault kind for
the constructor part. -/
theorem c3_witness :
    (((mkInstance InstanceKind.vault sampleMap [] "v").safeZone = true ↔
      InstanceKind.vault = InstanceKind.nexus) ∧
    (instanceUpdate tablesFragment sampleOracle
      (mkInstance InstanceKind.nexus sampleMap [] "n") (1/20) 0).2 = [] ∧
    (instanceUpdate tablesFragment sampleOracle
        (mkInstance InstanceKind.nexus sampleMap [] "n") (1/20) 0).1.spawnTimers =
      (mkInstance InstanceKind.nexus sampleMap [] "n").spawnTimers ∧
    (instanceUpdate tablesFragment sampleOracle
        (mkInstance InstanceKind.nexus sampleMap [] "n") (1/20) 0).1.players =
      ((mkInstance InstanceKind.nexus sampleMap [] "n").players.map (fun p =>
        healPlayer (p.update tablesFragment sampleOracle
          (mkInstance InstanceKind.nexus sampleMap [] "n").map (1/20) 0)
          (1/20))).filter (fun p => !p.markedForRemoval) ∧
    (instanceUpdate tablesFragment sampleOracle
        (mkInstance InstanceKind.nexus sampleMap [] "n") (1/20) 0).1.enemies.length ≤
      (mkInstance InstanceKind.nexus sampleMap [] "n").enemies.length) :=
  c3_safe_zone tablesFragment sampleOracle
    (mkInstance InstanceKind.nexus sampleMap [] "n") (1/20) 0
    InstanceKind.vault sampleMap [] "v" (by rfl)

end RotMG
